import Mathlib

/-!
A shallow embedding of the behaviour-tree combat core of the
`Agent2BehaviourTree` repository, together with theorems settling the
frozen claims about it.

Embedded sources:
* `src/TextGame/game_engine.py` — elements, actions, status ailments,
  resources, combat stats, `GameState`, the elemental multiplier table,
  `CombatEngine` (player/enemy action resolution, telegraphing,
  `process_turn`) and session construction (`DungeonGame.__init__`).
* `src/main.py` — the indentation-based DSL parser `parse_bt_dsl` and the
  parsed `BTNode` record.
* `src/TextGame/bt_executor.py` — the tree interpreter `BTExecutor`.
* `src/TextGame/bt_nodes.py` — the closed condition/action registry.

Modelling conventions:
* Python `int` values are embedded as `ℤ`; Python `int(x)` applied to a
  float is truncation toward zero, embedded as `Int.tdiv` of the exact
  rational value.  Floating-point expressions (`attack_stat / 15`,
  `damage * 1.5`, `current_hp / max_hp * 100`, `x * 0.7`) are embedded as
  exact rational arithmetic; at every concrete input appearing in the
  theorems below the double evaluation and the exact evaluation coincide
  (all intermediate values are exactly representable or compare away from
  the rounding error).
* Python's global `random` is embedded as an explicit `Oracle` record:
  one pre-drawn outcome per call site that draws randomness during one
  turn (proc rolls become `Bool`s, `random.choices` becomes an index into
  the weighted list — every element of positive weight is reachable by
  some index, and no claim here depends on the distribution itself).
* Mutation of the single `GameState` object is embedded as explicit state
  passing: each engine method takes and returns the state.
* `self.state.enemy` is `Optional` in Python and accessing a field of
  `None` raises; the engine only reaches those accesses with a live enemy
  present.  The embedding makes those spots total (skipping the access
  when the enemy is absent) and every theorem below is applied at states
  that carry an enemy, so the difference is never exercised.
* String handling that must evaluate inside the kernel is done on
  `List Char` (`String.data`); Python `str.strip`/`str.lower` are ASCII
  faithful here (no non-ASCII text flows through the engine).
-/

namespace A2BT

/-! ## Enumerations (`game_engine.py` lines 17-72) -/

/-- `Element` enum: Fire, Ice, Lightning, Neutral. -/
inductive Element where
  | FIRE
  | ICE
  | LIGHTNING
  | NEUTRAL
  deriving DecidableEq, Repr

/-- `PlayerAction` enum. -/
inductive PlayerAction where
  | ATTACK
  | POWER_STRIKE
  | FIRE_SPELL
  | ICE_SPELL
  | LIGHTNING_SPELL
  | DEFEND
  | HEAL
  | SCAN
  deriving DecidableEq, Repr

/-- `PlayerAction.value` strings of the Python enum. -/
def PlayerAction.value : PlayerAction → String
  | .ATTACK => "Attack"
  | .POWER_STRIKE => "PowerStrike"
  | .FIRE_SPELL => "FireSpell"
  | .ICE_SPELL => "IceSpell"
  | .LIGHTNING_SPELL => "LightningSpell"
  | .DEFEND => "Defend"
  | .HEAL => "Heal"
  | .SCAN => "Scan"

/-- `StatusAilment` enum. -/
inductive StatusAilment where
  | BURN
  | FREEZE
  | PARALYZE
  | ATTACK_DOWN
  | DEFENDING
  | RAGE_BUFF
  | ENRAGE
  | FROST_AURA
  | STORM_CHARGE
  deriving DecidableEq, Repr

/-- `EnemyType` enum. -/
inductive EnemyType where
  | FIRE_GOLEM
  | ICE_WRAITH
  | THUNDER_DRAKE
  deriving DecidableEq, Repr

/-- `EnemyType.value` strings of the Python enum. -/
def EnemyType.value : EnemyType → String
  | .FIRE_GOLEM => "FireGolem"
  | .ICE_WRAITH => "IceWraith"
  | .THUNDER_DRAKE => "ThunderDrake"

/-- `CombatResult` enum. -/
inductive CombatResult where
  | CONTINUE
  | PLAYER_WIN
  | PLAYER_DEATH
  | TURN_LIMIT
  deriving DecidableEq, Repr

/-! ## Data records (`game_engine.py` lines 75-173) -/

/-- `StatusEffect` dataclass: ailment, duration, value (default 0). -/
structure StatusEffect where
  ailment : StatusAilment
  duration : ℤ
  value : ℤ := 0
  deriving DecidableEq, Repr

/-- `Resources` dataclass with the Python field defaults. -/
structure Resources where
  tp : ℤ := 50
  mp : ℤ := 100
  max_tp : ℤ := 100
  max_mp : ℤ := 100
  tp_regen : ℤ := 15
  mp_regen : ℤ := 12
  deriving DecidableEq, Repr

/-- `Resources.regenerate`: add the per-turn regen, clamped at the maxima. -/
def Resources.regenerate (r : Resources) : Resources :=
  { r with tp := min r.max_tp (r.tp + r.tp_regen),
           mp := min r.max_mp (r.mp + r.mp_regen) }

/-- `Resources.spend_tp`: deduct `amount` and report success only when
`tp >= amount`; otherwise leave the pool untouched. -/
def Resources.spend_tp (r : Resources) (amount : ℤ) : Resources × Bool :=
  if r.tp ≥ amount then ({ r with tp := r.tp - amount }, true) else (r, false)

/-- `Resources.spend_mp`: deduct `amount` and report success only when
`mp >= amount`; otherwise leave the pool untouched. -/
def Resources.spend_mp (r : Resources) (amount : ℤ) : Resources × Bool :=
  if r.mp ≥ amount then ({ r with mp := r.mp - amount }, true) else (r, false)

/-- `Resources.gain_tp`: add TP, clamped at `max_tp`. -/
def Resources.gain_tp (r : Resources) (amount : ℤ) : Resources :=
  { r with tp := min r.max_tp (r.tp + amount) }

/-- `CombatStats` dataclass. -/
structure CombatStats where
  max_hp : ℤ
  current_hp : ℤ
  base_attack : ℤ
  defense : ℤ
  element : Element := .NEUTRAL
  deriving DecidableEq, Repr

/-- `CombatStats.is_alive`. -/
def CombatStats.is_alive (c : CombatStats) : Bool := c.current_hp > 0

/-- `CombatStats.hp_percentage` as the exact rational value of the Python
float `(current_hp / max_hp) * 100 if max_hp > 0 else 0`. -/
def CombatStats.hp_percentage (c : CombatStats) : ℚ :=
  if c.max_hp > 0 then (c.current_hp : ℚ) / (c.max_hp : ℚ) * 100 else 0

/-- `hp_percentage > num/den` as an exact integer comparison (`den > 0` at
every use; the engine only ever compares `hp_percentage`, never stores it). -/
def CombatStats.hpPctGt (c : CombatStats) (num den : ℤ) : Bool :=
  if c.max_hp > 0 then decide (c.current_hp * 100 * den > num * c.max_hp)
  else decide (num < 0)

/-- `hp_percentage < num/den` as an exact integer comparison (`den > 0` at
every use). -/
def CombatStats.hpPctLt (c : CombatStats) (num den : ℤ) : Bool :=
  if c.max_hp > 0 then decide (c.current_hp * 100 * den < num * c.max_hp)
  else decide (0 < num)

/-- `hp_percentage >= num/den` as an exact integer comparison. -/
def CombatStats.hpPctGe (c : CombatStats) (num den : ℤ) : Bool :=
  if c.max_hp > 0 then decide (c.current_hp * 100 * den ≥ num * c.max_hp)
  else decide (0 ≥ num)

/-- `CombatStats.take_damage`: subtract defense (floored at 0), reduce HP
(floored at 0), return the updated stats and the actual damage taken. -/
def CombatStats.take_damage (c : CombatStats) (damage : ℤ) : CombatStats × ℤ :=
  let actual_damage := max 0 (damage - c.defense)
  ({ c with current_hp := max 0 (c.current_hp - actual_damage) }, actual_damage)

/-- `CombatStats.heal`: raise HP clamped at `max_hp`, return the updated
stats and the amount actually healed. -/
def CombatStats.heal (c : CombatStats) (amount : ℤ) : CombatStats × ℤ :=
  let new_hp := min c.max_hp (c.current_hp + amount)
  ({ c with current_hp := new_hp }, new_hp - c.current_hp)

/-- `GameState` dataclass with the Python field defaults (the default
player block of `game_engine.py` lines 149-155). -/
structure GameState where
  turn_count : ℤ := 0
  player : CombatStats :=
    { max_hp := 100, current_hp := 100, base_attack := 15, defense := 8,
      element := .NEUTRAL }
  player_resources : Resources := {}
  player_status : List StatusEffect := []
  enemy : Option CombatStats := none
  enemy_type : Option EnemyType := none
  enemy_resources : Resources := {}
  enemy_status : List StatusEffect := []
  heal_cooldown : ℤ := 0
  scanned : Bool := false
  telegraphed_action : Option String := none
  last_enemy_action : Option String := none
  action_history : List String := []
  enemy_element_duration : ℤ := 0
  deriving DecidableEq, Repr

/-- The status list selected by the Python string target
(`player_status if target == "player" else enemy_status`). -/
def GameState.statusList (s : GameState) (target : String) : List StatusEffect :=
  if target = "player" then s.player_status else s.enemy_status

/-- Write back the status list selected by the target string. -/
def GameState.setStatusList (s : GameState) (target : String)
    (l : List StatusEffect) : GameState :=
  if target = "player" then { s with player_status := l }
  else { s with enemy_status := l }

/-- `GameState.has_status`: any effect with the given ailment. -/
def GameState.has_status (s : GameState) (target : String)
    (ailment : StatusAilment) : Bool :=
  (s.statusList target).any (fun e => decide (e.ailment = ailment))

/-- Pure core of `GameState.add_status`: drop existing effects with the
same ailment, then append the new one. -/
def addStatusList (l : List StatusEffect) (effect : StatusEffect) :
    List StatusEffect :=
  (l.filter (fun e => decide (e.ailment ≠ effect.ailment))) ++ [effect]

/-- `GameState.add_status`. -/
def GameState.add_status (s : GameState) (target : String)
    (effect : StatusEffect) : GameState :=
  s.setStatusList target (addStatusList (s.statusList target) effect)

/-- Pure core of `GameState.remove_status`. -/
def removeStatusList (l : List StatusEffect) (ailment : StatusAilment) :
    List StatusEffect :=
  l.filter (fun e => decide (e.ailment ≠ ailment))

/-- `GameState.remove_status`. -/
def GameState.remove_status (s : GameState) (target : String)
    (ailment : StatusAilment) : GameState :=
  s.setStatusList target (removeStatusList (s.statusList target) ailment)

/-- Pure core of `GameState.tick_status_effects`: one `(BURN, 5)` damage
event per Burn effect (in list order), every duration decremented by one,
effects at duration `<= 0` removed. -/
def tickStatusList (l : List StatusEffect) :
    List StatusEffect × List (StatusAilment × ℤ) :=
  let damage_events := (l.filter (fun e => decide (e.ailment = .BURN))).map
    (fun _ => (StatusAilment.BURN, (5 : ℤ)))
  let ticked := (l.map (fun e => { e with duration := e.duration - 1 })).filter
    (fun e => decide (e.duration > 0))
  (ticked, damage_events)

/-! ## Elemental weakness system (`game_engine.py` lines 210-232) -/

/-- `ELEMENTAL_WEAKNESS` dict: Fire is weak to Ice, Ice to Lightning,
Lightning to Fire; Neutral has no weakness. -/
def ELEMENTAL_WEAKNESS : Element → Option Element
  | .FIRE => some .ICE
  | .ICE => some .LIGHTNING
  | .LIGHTNING => some .FIRE
  | .NEUTRAL => none

/-- `calculate_elemental_multiplier`, doubled: the Python function returns
the float `1.0`, `1.5` or `0.5`; every value is a half-integer, so the
table is stored as twice the multiplier (`2`, `3`, `1`) to keep the
integer damage pipeline exact.  Branch order follows the source: Neutral
on either side gives 1.0; super effective (the target's weakness is the
attacking element) gives 1.5; resisted (the attacker's weakness is the
target element) gives 0.5; otherwise 1.0. -/
def elementalMultiplierX2 (attack_element target_element : Element) : ℤ :=
  if attack_element = .NEUTRAL ∨ target_element = .NEUTRAL then 2
  else if ELEMENTAL_WEAKNESS target_element = some attack_element then 3
  else if ELEMENTAL_WEAKNESS attack_element = some target_element then 1
  else 2

/-- `calculate_elemental_multiplier` as the rational value the Python
function returns. -/
def calculate_elemental_multiplier (attack_element target_element : Element) : ℚ :=
  (elementalMultiplierX2 attack_element target_element : ℚ) / 2

/-- `int(damage * multiplier)` for a half-integer multiplier: exact, since
`damage * 1.5` and `damage * 0.5` are exactly representable doubles for
every damage value the engine produces. -/
def applyMultX2 (damage : ℤ) (x2 : ℤ) : ℤ := Int.tdiv (damage * x2) 2

/-! ## The combat engine (`game_engine.py` lines 235-729)

`CombatEngine` holds a reference to the single `GameState` and mutates it;
here every method takes the state and returns the updated state. -/

/-- `CombatEngine.TURN_LIMIT`. -/
def TURN_LIMIT : ℤ := 35

/-- The pre-drawn random outcomes one `process_turn` call can consume, one
field per drawing site (each site draws at most once per turn). -/
structure Oracle where
  /-- `random.random() < 0.25` in the player's spell branches. -/
  playerProc : Bool := false
  /-- `random.random() < 0.5` paralyze-miss roll in `_calculate_damage`
  (only drawn when the attacker is the player and paralyzed). -/
  playerMiss : Bool := false
  /-- `random.random() < 0.25` status proc in the enemy's spell actions. -/
  enemyProc : Bool := false
  /-- `random.random() < 0.3` Frost Aura freeze roll. -/
  frostProc : Bool := false
  /-- `random.choices` outcome when `execute_enemy_turn` has to select
  freshly (no telegraphed action stored). -/
  execPick : Nat := 0
  /-- `random.choices` outcome inside `telegraph_enemy_action`. -/
  telePick : Nat := 0
  deriving DecidableEq, Repr

/-- The element of `random.choices(options, ...)` designated by the
oracle index: any element is reachable, the weights only shape the
distribution, on which no claim depends. -/
def choosePy (options : List String) (pick : Nat) : String :=
  options.getD (pick % options.length) ""

/-- Result dict of `execute_player_action`. -/
structure PlayerResult where
  action : String
  success : Bool := false
  damage : ℤ := 0
  heal : ℤ := 0
  cost_tp : ℤ := 0
  cost_mp : ℤ := 0
  status_applied : Option String := none
  message : String := ""
  deriving DecidableEq, Repr

/-- Result dict of `execute_enemy_turn` and the per-enemy executors. -/
structure EnemyResult where
  action : String := ""
  damage : ℤ := 0
  heal : ℤ := 0
  status_applied : Option String := none
  message : String := ""
  telegraphed : Option String := none
  deriving DecidableEq, Repr

/-- Apply a function to the enemy stats when present (the Python code
would raise on a missing enemy; every engine call site has one). -/
def GameState.updateEnemy (s : GameState) (f : CombatStats → CombatStats) :
    GameState :=
  match s.enemy with
  | some e => { s with enemy := some (f e) }
  | none => s

/-- `CombatEngine._calculate_damage`.  The float pipeline
`int(damage * (attack_stat / 15))` (and the `0.7`/`1.4`/`1.5` stat
factors) is embedded as exact truncated rational arithmetic over `ℤ`.
Returns the possibly changed state (the Storm-Charge branch removes a
status) and the damage value. -/
def calcDamage (s : GameState) (base_damage : ℤ) (element : Element)
    (attacker : String) (o : Oracle) : GameState × ℤ :=
  let damage := base_damage
  let attack_stat : ℤ :=
    if attacker = "player" then
      let a := s.player.base_attack
      -- attack down debuff: int(attack_stat * 0.7)
      if s.has_status "player" .ATTACK_DOWN then Int.tdiv (a * 7) 10 else a
    else
      let a := match s.enemy with
        | some e => e.base_attack
        | none => 0  -- Python raises here; never reached by the engine
      -- rage buff: int(attack_stat * 1.4); enrage: int(attack_stat * 1.5)
      let a := if s.has_status "enemy" .RAGE_BUFF then Int.tdiv (a * 14) 10 else a
      let a := if s.has_status "enemy" .ENRAGE then Int.tdiv (a * 3) 2 else a
      a
  -- scale with attack stat: int(damage * (attack_stat / 15))
  let damage := Int.tdiv (damage * attack_stat) 15
  -- elemental multiplier
  let damage :=
    if attacker = "player" then
      match s.enemy with
      | some e => applyMultX2 damage (elementalMultiplierX2 element e.element)
      | none => damage
    else
      applyMultX2 damage (elementalMultiplierX2 element s.player.element)
  -- paralyze miss chance (player attacker only)
  if attacker = "player" ∧ s.has_status "player" .PARALYZE ∧ o.playerMiss then
    (s, 0)
  else
    -- Storm Charge doubling for the enemy, consumed on use
    let sd :=
      if attacker = "enemy" ∧ s.has_status "enemy" .STORM_CHARGE ∧
          element = .LIGHTNING then
        (s.remove_status "enemy" .STORM_CHARGE, damage * 2)
      else (s, damage)
    (sd.1, max 0 sd.2)

/-- `CombatEngine._get_enemy_weakness`. -/
def getEnemyWeakness (s : GameState) : String :=
  match s.enemy with
  | none => "None"
  | some e =>
    match ELEMENTAL_WEAKNESS e.element with
    | some w => match w with
      | .FIRE => "Fire"
      | .ICE => "Ice"
      | .LIGHTNING => "Lightning"
      | .NEUTRAL => "Neutral"
    | none => "None"

/-- The early-return branch of `execute_player_action` taken when the
player carries the Freeze status: consume the action as a no-op, drop the
Freeze. -/
def playerFrozenSkip (s : GameState) (action : PlayerAction) :
    GameState × PlayerResult :=
  (s.remove_status "player" .FREEZE,
   { action := action.value, message := "Player is frozen! Turn skipped." })

/-- The trailing apply-damage-to-enemy block of `execute_player_action`
(`if result['damage'] > 0 and self.state.enemy`). -/
def applyPlayerDamage (sr : GameState × PlayerResult) : GameState × PlayerResult :=
  let s := sr.1
  let result := sr.2
  if result.damage > 0 ∧ s.enemy.isSome then
    match s.enemy with
    | some e =>
      let ed := e.take_damage result.damage
      ({ s with enemy := some ed.1 }, { result with damage := ed.2 })
    | none => (s, result)
  else (s, result)

/-- The `if action == ...` ladder of `execute_player_action` (everything
between the frozen check and the apply-damage block). -/
def playerDispatch (s : GameState) (action : PlayerAction) (o : Oracle) :
    GameState × PlayerResult :=
  let r0 : PlayerResult := { action := action.value }
  match action with
    | .ATTACK =>
      let sd := calcDamage s 15 .NEUTRAL "player" o
      let s := { sd.1 with player_resources := sd.1.player_resources.gain_tp 15 }
      (s, { r0 with
        success := true, damage := sd.2,
        message := "Attack dealt " ++ toString sd.2 ++
        " damage, gained 15 TP" })
    | .POWER_STRIKE =>
      match s.player_resources.spend_tp 30 with
      | (res, true) =>
        let s := { s with player_resources := res }
        let sd := calcDamage s 45 .NEUTRAL "player" o
        (sd.1, { r0 with
          success := true, cost_tp := 30, damage := sd.2,
          message := "Power Strike dealt " ++ toString sd.2 ++ " damage" })
      | (_, false) => (s, { r0 with message := "Not enough TP!" })
    | .FIRE_SPELL =>
      match s.player_resources.spend_mp 20 with
      | (res, true) =>
        let s := { s with player_resources := res }
        let sd := calcDamage s 28 .FIRE "player" o
        let s := sd.1
        -- 25% chance to burn
        let sr :=
          if o.playerProc then
            (s.add_status "enemy" { ailment := .BURN, duration := 3, value := 5 },
             some "Burn")
          else (s, none)
        (sr.1, { r0 with
          success := true, cost_mp := 20, damage := sd.2,
          status_applied := sr.2,
          message := "Fire Spell dealt " ++ toString sd.2 ++ " damage" })
      | (_, false) => (s, { r0 with message := "Not enough MP!" })
    | .ICE_SPELL =>
      match s.player_resources.spend_mp 20 with
      | (res, true) =>
        let s := { s with player_resources := res }
        let sd := calcDamage s 28 .ICE "player" o
        let s := sd.1
        -- 25% chance to freeze
        let sr :=
          if o.playerProc then
            (s.add_status "enemy" { ailment := .FREEZE, duration := 1 },
             some "Freeze")
          else (s, none)
        (sr.1, { r0 with
          success := true, cost_mp := 20, damage := sd.2,
          status_applied := sr.2,
          message := "Ice Spell dealt " ++ toString sd.2 ++ " damage" })
      | (_, false) => (s, { r0 with message := "Not enough MP!" })
    | .LIGHTNING_SPELL =>
      match s.player_resources.spend_mp 20 with
      | (res, true) =>
        let s := { s with player_resources := res }
        let sd := calcDamage s 28 .LIGHTNING "player" o
        let s := sd.1
        -- 25% chance to paralyze
        let sr :=
          if o.playerProc then
            (s.add_status "enemy" { ailment := .PARALYZE, duration := 2 },
             some "Paralyze")
          else (s, none)
        (sr.1, { r0 with
          success := true, cost_mp := 20, damage := sd.2,
          status_applied := sr.2,
          message := "Lightning Spell dealt " ++ toString sd.2 ++ " damage" })
      | (_, false) => (s, { r0 with message := "Not enough MP!" })
    | .DEFEND =>
      let s := s.add_status "player" { ailment := .DEFENDING, duration := 1 }
      let s := { s with player_resources := s.player_resources.gain_tp 20 }
      (s, { r0 with
        success := true,
        message := "Defending! Damage reduced by 50%, gained 20 TP" })
    | .HEAL =>
      if s.heal_cooldown > 0 then
        (s, { r0 with
          message := "Heal on cooldown (" ++
          toString s.heal_cooldown ++ " turns left)" })
      else
        match s.player_resources.spend_mp 30 with
        | (res, true) =>
          let s := { s with player_resources := res }
          let ph := s.player.heal 45
          let s := { s with player := ph.1, heal_cooldown := 3 }
          (s, { r0 with
            success := true, cost_mp := 30, heal := ph.2,
            message := "Healed " ++ toString ph.2 ++ " HP" })
        | (_, false) => (s, { r0 with message := "Not enough MP!" })
    | .SCAN =>
      match s.player_resources.spend_mp 15 with
      | (res, true) =>
        let s := { s with player_resources := res, scanned := true }
        let tn := match s.enemy_type with
          | some t => t.value
          | none => "None"  -- Python raises here; sessions always set a type
        (s, { r0 with
          success := true, cost_mp := 15,
          message := "Scanned! Enemy is " ++ tn ++ " (Weak to " ++
          getEnemyWeakness s ++ ")" })
      | (_, false) => (s, { r0 with message := "Not enough MP!" })

/-- The action dispatch of `execute_player_action` (everything after the
frozen check): the action ladder followed by the apply-damage block. -/
def playerActionResolve (s : GameState) (action : PlayerAction) (o : Oracle) :
    GameState × PlayerResult :=
  applyPlayerDamage (playerDispatch s action o)

/-- `CombatEngine.execute_player_action`. -/
def executePlayerAction (s : GameState) (action : PlayerAction) (o : Oracle) :
    GameState × PlayerResult :=
  if s.has_status "player" .FREEZE then playerFrozenSkip s action
  else playerActionResolve s action o

/-- `CombatEngine._select_enemy_action`: the per-archetype, per-HP-phase
weighted choice, with the one-shot Enrage / Frost Aura activation at the
low phase.  The oracle index designates the chosen element of the
active phase's list. -/
def selectEnemyAction (s : GameState) (pick : Nat) : GameState × String :=
  match s.enemy with
  | none => (s, "Slam")  -- Python raises here; callers guarantee an enemy
  | some e =>
    match s.enemy_type with
    | some .FIRE_GOLEM =>
      if e.hpPctGt 60 1 then
        (s, choosePy ["Slam", "HeavySlam", "FireSpell", "RageBuff"] pick)
      else if e.hpPctGt 30 1 then
        (s, choosePy ["HeavySlam", "RageBuff", "Slam", "FireSpell"] pick)
      else
        let s := if ¬ s.has_status "enemy" .ENRAGE then
            s.add_status "enemy" { ailment := .ENRAGE, duration := 999 }
          else s
        (s, choosePy ["HeavySlam", "FireSpell", "Slam"] pick)
    | some .ICE_WRAITH =>
      if e.hpPctGt 60 1 then
        (s, choosePy ["IceSpell", "FrostTouch", "Debuff", "Heal"] pick)
      else if e.hpPctGt 30 1 then
        (s, choosePy ["Heal", "IceSpell", "Debuff", "FrostTouch"] pick)
      else
        let s := if ¬ s.has_status "enemy" .FROST_AURA then
            s.add_status "enemy" { ailment := .FROST_AURA, duration := 999 }
          else s
        (s, choosePy ["Heal", "IceSpell", "FrostTouch"] pick)
    | some .THUNDER_DRAKE =>
      if e.hpPctGt 60 1 then
        (s, choosePy ["ClawSwipe", "LightningSpell", "TailSweep", "ThunderStrike"] pick)
      else if e.hpPctGt 35 1 then
        (s, choosePy ["LightningSpell", "ThunderStrike", "ClawSwipe", "TailSweep"] pick)
      else
        (s, choosePy ["StormCharge", "LightningSpell", "ThunderStrike"] pick)
    | none => (s, "Slam")

/-- `CombatEngine._execute_fire_golem_action`. -/
def executeFireGolemAction (s : GameState) (action : String) (o : Oracle) :
    GameState × EnemyResult :=
  let r0 : EnemyResult := { action := action }
  if action = "Slam" then
    match s.enemy_resources.spend_tp 10 with
    | (res, true) =>
      let s := { s with enemy_resources := res }
      let sd := calcDamage s 21 .NEUTRAL "enemy" o
      (sd.1, { r0 with
        damage := sd.2,
        message := "Enemy slams for " ++ toString sd.2 ++ " damage" })
    | (_, false) => (s, r0)
  else if action = "HeavySlam" then
    match s.enemy_resources.spend_tp 30 with
    | (res, true) =>
      let s := { s with enemy_resources := res }
      let sd := calcDamage s 45 .NEUTRAL "enemy" o
      let s := (sd.1.updateEnemy (fun e => { e with element := .FIRE }))
      let s := { s with enemy_element_duration := 3 }
      (s, { r0 with
        damage := sd.2,
        message := "Enemy heavy slams for " ++ toString sd.2 ++
        " damage" ++ " [Gained FIRE element!]",
        telegraphed := some "Enemy raises its fists!" })
    | (_, false) => (s, r0)
  else if action = "FireSpell" then
    match s.enemy_resources.spend_mp 20 with
    | (res, true) =>
      let s := { s with enemy_resources := res }
      let sd := calcDamage s 28 .FIRE "enemy" o
      let s := (sd.1.updateEnemy (fun e => { e with element := .FIRE }))
      let s := { s with enemy_element_duration := 3 }
      (s, { r0 with
        damage := sd.2,
        message := "Enemy casts Fire Spell for " ++ toString sd.2 ++
        " damage" ++ " [Gained FIRE element!]" })
    | (_, false) => (s, r0)
  else if action = "RageBuff" then
    match s.enemy_resources.spend_mp 25 with
    | (res, true) =>
      let s := { s with enemy_resources := res }
      let s := s.add_status "enemy" { ailment := .RAGE_BUFF, duration := 3 }
      (s, { r0 with
        status_applied := some "Rage Buff",
        message := "Enemy enrages! Attack +40% for 3 turns" })
    | (_, false) => (s, r0)
  else (s, r0)

/-- `CombatEngine._execute_ice_wraith_action`. -/
def executeIceWraithAction (s : GameState) (action : String) (o : Oracle) :
    GameState × EnemyResult :=
  let r0 : EnemyResult := { action := action }
  if action = "FrostTouch" then
    match s.enemy_resources.spend_tp 10 with
    | (res, true) =>
      let s := { s with enemy_resources := res }
      let sd := calcDamage s 18 .NEUTRAL "enemy" o
      (sd.1, { r0 with
        damage := sd.2,
        message := "Enemy touches for " ++ toString sd.2 ++ " damage" })
    | (_, false) => (s, r0)
  else if action = "IceSpell" then
    match s.enemy_resources.spend_mp 20 with
    | (res, true) =>
      let s := { s with enemy_resources := res }
      let sd := calcDamage s 28 .ICE "enemy" o
      let s := (sd.1.updateEnemy (fun e => { e with element := .ICE }))
      let s := { s with enemy_element_duration := 3 }
      -- 25% freeze chance
      let sr :=
        if o.enemyProc then
          (s.add_status "player" { ailment := .FREEZE, duration := 1 },
           some "Freeze")
        else (s, none)
      (sr.1, { r0 with
        damage := sd.2, status_applied := sr.2,
        message := "Enemy casts Ice Spell for " ++ toString sd.2 ++
        " damage" ++ " [Gained ICE element!]" })
    | (_, false) => (s, r0)
  else if action = "Heal" then
    match s.enemy_resources.spend_mp 30 with
    | (res, true) =>
      let s := { s with enemy_resources := res }
      match s.enemy with
      | some e =>
        let eh := e.heal 40
        ({ s with enemy := some eh.1 },
         { r0 with
           heal := eh.2,
           message := "Enemy heals " ++ toString eh.2 ++ " HP" })
      | none => (s, r0)  -- Python raises here; callers guarantee an enemy
    | (_, false) => (s, r0)
  else if action = "Debuff" then
    match s.enemy_resources.spend_mp 20 with
    | (res, true) =>
      let s := { s with enemy_resources := res }
      let s := s.add_status "player" { ailment := .ATTACK_DOWN, duration := 3 }
      (s, { r0 with
        status_applied := some "Attack Down",
        message := "Enemy curses you! Attack -30% for 3 turns" })
    | (_, false) => (s, r0)
  else (s, r0)

/-- `CombatEngine._execute_thunder_drake_action`. -/
def executeThunderDrakeAction (s : GameState) (action : String) (o : Oracle) :
    GameState × EnemyResult :=
  let r0 : EnemyResult := { action := action }
  if action = "ClawSwipe" then
    match s.enemy_resources.spend_tp 10 with
    | (res, true) =>
      let s := { s with enemy_resources := res }
      let sd := calcDamage s 23 .NEUTRAL "enemy" o
      (sd.1, { r0 with
        damage := sd.2,
        message := "Enemy swipes for " ++ toString sd.2 ++ " damage" })
    | (_, false) => (s, r0)
  else if action = "LightningSpell" then
    match s.enemy_resources.spend_mp 20 with
    | (res, true) =>
      let s := { s with enemy_resources := res }
      let sd := calcDamage s 28 .LIGHTNING "enemy" o
      let s := (sd.1.updateEnemy (fun e => { e with element := .LIGHTNING }))
      let s := { s with enemy_element_duration := 3 }
      -- 25% paralyze chance
      let sr :=
        if o.enemyProc then
          (s.add_status "player" { ailment := .PARALYZE, duration := 2 },
           some "Paralyze")
        else (s, none)
      (sr.1, { r0 with
        damage := sd.2, status_applied := sr.2,
        message := "Enemy casts Lightning Spell for " ++ toString sd.2 ++
        " damage" ++ " [Gained LIGHTNING element!]" })
    | (_, false) => (s, r0)
  else if action = "TailSweep" then
    match s.enemy_resources.spend_tp 15 with
    | (res, true) =>
      let s := { s with enemy_resources := res }
      let sd := calcDamage s 25 .NEUTRAL "enemy" o
      (sd.1, { r0 with
        damage := sd.2,
        message := "Enemy tail sweeps for " ++ toString sd.2 ++ " damage" })
    | (_, false) => (s, r0)
  else if action = "ThunderStrike" then
    match s.enemy_resources.spend_tp 35 with
    | (res, true) =>
      let s := { s with enemy_resources := res }
      let sd := calcDamage s 50 .NEUTRAL "enemy" o
      let s := (sd.1.updateEnemy (fun e => { e with element := .LIGHTNING }))
      let s := { s with enemy_element_duration := 3 }
      (s, { r0 with
        damage := sd.2,
        message := "Enemy thunder strikes for " ++ toString sd.2 ++
        " damage" ++ " [Gained LIGHTNING element!]",
        telegraphed := some "Enemy crackles with energy!" })
    | (_, false) => (s, r0)
  else if action = "StormCharge" then
    match s.enemy_resources.spend_mp 25 with
    | (res, true) =>
      let s := { s with enemy_resources := res }
      let s := s.add_status "enemy" { ailment := .STORM_CHARGE, duration := 1 }
      (s, { r0 with
        status_applied := some "Storm Charge",
        message := "Enemy charges storm power! Next Lightning Spell 2x damage",
        telegraphed := some "Enemy channels storm power!" })
    | (_, false) => (s, r0)
  else (s, r0)

/-- The per-archetype dispatch inside `execute_enemy_turn`. -/
def enemyDispatch (s : GameState) (action : String) (o : Oracle) :
    GameState × EnemyResult :=
  match s.enemy_type with
  | some .FIRE_GOLEM => executeFireGolemAction s action o
  | some .ICE_WRAITH => executeIceWraithAction s action o
  | some .THUNDER_DRAKE => executeThunderDrakeAction s action o
  | none => (s, { action := action })

/-- The apply-damage-to-player block of `execute_enemy_turn`: halved by
an active Defend, then through the player's `take_damage`. -/
def applyEnemyDamage (sr : GameState × EnemyResult) : GameState × EnemyResult :=
  let s := sr.1
  let result := sr.2
  if result.damage > 0 then
    let dres :=
      if s.has_status "player" .DEFENDING then
        { result with
          damage := Int.tdiv result.damage 2,
          message := result.message ++ " (Reduced by Defend!)" }
      else result
    let pd := s.player.take_damage dres.damage
    ({ s with player := pd.1 }, { dres with damage := pd.2 })
  else (s, result)

/-- The Frost Aura freeze-chance block of `execute_enemy_turn`. -/
def applyFrostAura (sr : GameState × EnemyResult) (o : Oracle) :
    GameState × EnemyResult :=
  let s := sr.1
  let result := sr.2
  if decide (s.enemy_type = some EnemyType.ICE_WRAITH) &&
      s.has_status "enemy" .FROST_AURA && o.frostProc then
    (s.add_status "player" { ailment := .FREEZE, duration := 1 },
     { result with status_applied := some "Freeze (Frost Aura)" })
  else (s, result)

/-- The action-history block of `execute_enemy_turn`: record the action
and keep only the recent 5. -/
def recordEnemyAction (s : GameState) (action : String) : GameState :=
  if action ≠ "" then
    let hist := s.action_history ++ [action]
    { s with last_enemy_action := some action,
             action_history := if hist.length > 5 then hist.tail else hist }
  else s

/-- `CombatEngine.execute_enemy_turn`: run the previously telegraphed
action (a stored falsy telegraph — `None` or the empty string — falls
back to a fresh `_select_enemy_action`), then the damage application,
Frost Aura, history recording and the clearing of the telegraph. -/
def executeEnemyTurn (s : GameState) (o : Oracle) : GameState × EnemyResult :=
  let r0 : EnemyResult := {}
  match s.enemy with
  | none => (s, r0)
  | some e =>
    if ¬ e.is_alive then (s, r0)
    else if s.has_status "enemy" .FREEZE then
      ({ s.remove_status "enemy" .FREEZE with telegraphed_action := none },
       { r0 with message := "Enemy is frozen! Turn skipped." })
    else
      let sa :=
        match s.telegraphed_action with
        | some a => if a = "" then selectEnemyAction s o.execPick else (s, a)
        | none => selectEnemyAction s o.execPick
      let sr := applyFrostAura (applyEnemyDamage (enemyDispatch sa.1 sa.2 o)) o
      ({ recordEnemyAction sr.1 sa.2 with telegraphed_action := none }, sr.2)


/-- The actions `telegraph_enemy_action` exposes by name. -/
def TELEGRAPHED_ACTIONS : List String :=
  ["HeavySlam", "ThunderStrike", "StormCharge",
   "RageBuff", "Heal", "Debuff", "FrostAura"]

/-- `CombatEngine.telegraph_enemy_action`: pick the enemy's next action;
store it as the telegraph only when it is a heavy/special action,
otherwise store `None`. -/
def telegraphEnemyAction (s : GameState) (o : Oracle) : GameState × String :=
  match s.enemy with
  | none => (s, "")
  | some e =>
    if ¬ e.is_alive then (s, "")
    else if s.has_status "enemy" .FREEZE then
      ({ s with telegraphed_action := some "Frozen" }, "Frozen")
    else
      let sa := selectEnemyAction s o.telePick
      let s := sa.1
      let action := sa.2
      if action ∈ TELEGRAPHED_ACTIONS then
        ({ s with telegraphed_action := some action }, action)
      else
        ({ s with telegraphed_action := none }, action)

/-- `s.enemy.is_alive()` guarded on presence (Python raises when the
enemy is `None`; `process_turn` states always carry one). -/
def GameState.enemyAlive (s : GameState) : Bool :=
  match s.enemy with
  | some e => e.is_alive
  | none => false

/-- Increment of the turn counter at the top of `process_turn`. -/
def incTurn (s : GameState) : GameState :=
  { s with turn_count := s.turn_count + 1 }

/-- Steps 2-5 of `process_turn`, between the turn-limit check and the
player action: heal-cooldown decrement, resource regeneration, status
ticking (player then enemy), enemy-element expiry, DoT application. -/
def tickPhase (s : GameState) : GameState :=
  let s := if s.heal_cooldown > 0 then
      { s with heal_cooldown := s.heal_cooldown - 1 } else s
  let s := { s with player_resources := s.player_resources.regenerate,
                    enemy_resources := s.enemy_resources.regenerate }
  let pt := tickStatusList s.player_status
  let et := tickStatusList s.enemy_status
  let s := { s with player_status := pt.1, enemy_status := et.1 }
  let player_dots := pt.2
  let enemy_dots := et.2
  let s :=
    if s.enemy_element_duration > 0 then
      let s := { s with enemy_element_duration := s.enemy_element_duration - 1 }
      if s.enemy_element_duration = 0 then
        s.updateEnemy (fun e => { e with element := .NEUTRAL })
      else s
    else s
  let s := player_dots.foldl
    (fun s ev => { s with player := (s.player.take_damage ev.2).1 }) s
  let s := enemy_dots.foldl
    (fun s ev => s.updateEnemy (fun e => (e.take_damage ev.2).1)) s
  s

/-- The full return of one `process_turn` call.  Python returns the two
result dicts, or `{}` for a half that never ran, embedded as `Option`. -/
structure TurnOutput where
  state : GameState
  result : CombatResult
  player_info : Option PlayerResult
  enemy_info : Option EnemyResult
  deriving DecidableEq, Repr

/-- `CombatEngine.process_turn`: the complete telegraph-first turn. -/
def processTurn (s : GameState) (player_action : PlayerAction) (o : Oracle) :
    TurnOutput :=
  let s := incTurn s
  if s.turn_count > TURN_LIMIT then ⟨s, .TURN_LIMIT, none, none⟩
  else
    let s := tickPhase s
    let spr := executePlayerAction s player_action o
    let s := spr.1
    let player_result := spr.2
    if ¬ s.enemyAlive then ⟨s, .PLAYER_WIN, some player_result, none⟩
    else
      let ser := executeEnemyTurn s o
      let s := ser.1
      let enemy_result := ser.2
      if ¬ s.player.is_alive then
        ⟨s, .PLAYER_DEATH, some player_result, some enemy_result⟩
      else
        let s := s.remove_status "player" .DEFENDING
        let s := if s.enemyAlive then (telegraphEnemyAction s o).1 else s
        ⟨s, .CONTINUE, some player_result, some enemy_result⟩

/-- `create_enemy`: every archetype starts with the same stats, Neutral. -/
def createEnemy : CombatStats :=
  { max_hp := 180, current_hp := 180, base_attack := 15, defense := 8,
    element := .NEUTRAL }

/-- The per-archetype enemy resource pools of `DungeonGame.__init__`. -/
def enemyResourcesFor : EnemyType → Resources
  | .FIRE_GOLEM =>
    { tp := 50, mp := 40, max_tp := 100, max_mp := 40, tp_regen := 20, mp_regen := 8 }
  | .ICE_WRAITH =>
    { tp := 50, mp := 100, max_tp := 100, max_mp := 100, tp_regen := 12, mp_regen := 15 }
  | .THUNDER_DRAKE =>
    { tp := 50, mp := 70, max_tp := 100, max_mp := 70, tp_regen := 15, mp_regen := 12 }

/-- The session-start state built by `DungeonGame.__init__` for a given
archetype. -/
def initialState (enemy_type : EnemyType) : GameState :=
  { enemy_type := some enemy_type, enemy := some createEnemy,
    enemy_resources := enemyResourcesFor enemy_type }

/-! ## The DSL parser (`src/main.py`)

String work is done on `List Char` so the kernel can evaluate it.
`str.strip()` / `str.lower()` are mirrored for the ASCII texts the DSL
uses. -/

/-- Python `str.strip()` on a character list. -/
def pyStrip (l : List Char) : List Char :=
  ((l.dropWhile Char.isWhitespace).reverse.dropWhile Char.isWhitespace).reverse

/-- Python `str.strip()` on a `String`. -/
def pyStripStr (str : String) : String := ⟨pyStrip str.data⟩

/-- ASCII `str.lower()` of one character. -/
def lowerChar (c : Char) : Char :=
  if 'A' ≤ c ∧ c ≤ 'Z' then Char.ofNat (c.toNat + 32) else c

/-- ASCII `str.lower()`. -/
def lowerStr (str : String) : String := ⟨str.data.map lowerChar⟩

/-- Python `text.split('\n')` (no limit, never drops empties). -/
def splitLinesAux : List Char → List Char → List (List Char)
  | [], cur => [cur.reverse]
  | c :: rest, cur =>
    if c = '\n' then cur.reverse :: splitLinesAux rest []
    else splitLinesAux rest (c :: cur)

/-- Split a character list into its lines. -/
def splitLines (l : List Char) : List (List Char) := splitLinesAux l []

/-- Python `s.split(sep, 1)`: split at the first occurrence of `sep`,
`none` when `sep` does not occur. -/
def splitOnceAux (sep : List Char) : List Char → Option (List Char × List Char)
  | [] => none
  | c :: rest =>
    if sep.isPrefixOf (c :: rest) then some ([], (c :: rest).drop sep.length)
    else (splitOnceAux sep rest).map (fun ab => (c :: ab.1, ab.2))

/-- `BTNode` of `src/main.py`: node type, optional parameter, children.
The constructor strips both strings; an empty (falsy) parameter becomes
`None`. -/
inductive BTNode where
  | mk (node_type : String) (param : Option String) (children : List BTNode)

/-- The node kind string. -/
def BTNode.node_type : BTNode → String
  | .mk t _ _ => t

/-- The node parameter. -/
def BTNode.param : BTNode → Option String
  | .mk _ p _ => p

/-- The child list. -/
def BTNode.children : BTNode → List BTNode
  | .mk _ _ cs => cs

/-- `BTNode.__init__`'s treatment of the parameter:
`param.strip() if param else None`. -/
def mkParam (p : Option (List Char)) : Option String :=
  match p with
  | none => none
  | some l => if l = [] then none else some ⟨pyStrip l⟩

/-- `parse_line` inside `parse_bt_dsl`: leading-space count must be a
multiple of the indent unit 4 (else `ValueError`, embedded as `none`);
the stripped remainder splits once on `" : "` into node type and
parameter, both stripped by `BTNode.__init__`. -/
def parseLinePy (line : List Char) : Option (Nat × String × Option String) :=
  let indent_len := (line.takeWhile (fun c => c = ' ')).length
  if indent_len % 4 ≠ 0 then none
  else
    let level := indent_len / 4
    let stripped := pyStrip line
    match splitOnceAux " : ".data stripped with
    | some ab => some (level, ⟨pyStrip ab.1⟩, mkParam (some ab.2))
    | none => some (level, ⟨pyStrip stripped⟩, none)

/-- A parser-stack entry: depth, node type, parameter, children collected
so far (in reverse). -/
abbrev StackEntry := Nat × String × Option String × List BTNode

/-- Close a finished stack entry into a `BTNode`. -/
def buildEntry (e : StackEntry) : BTNode :=
  .mk e.2.1 e.2.2.1 e.2.2.2.reverse

/-- Close the top entry and attach it as a child (front of the reversed
child list) of the entry below it. -/
def mergeEntry (e p : StackEntry) : StackEntry :=
  (p.1, p.2.1, p.2.2.1, buildEntry e :: p.2.2.2)

/-- Loop of `popToParent` with the current top held apart so the
recursion is structural on the remaining stack. -/
def popGo (level : Nat) (e : StackEntry) : List StackEntry →
    Option (List StackEntry)
  | [] => if level ≤ e.1 then none else some [e]
  | p :: rest =>
    if level ≤ e.1 then popGo level (mergeEntry e p) rest
    else some (e :: p :: rest)

/-- Pop stack entries whose depth is `>= level`, attaching each closed
node to the entry below it.  Python indexes `stack[-1]` inside the loop
condition, so an emptied stack raises (`none`). -/
def popToParent (level : Nat) : List StackEntry → Option (List StackEntry)
  | [] => none
  | e :: rest => popGo level e rest

/-- Collapse the stack below its top entry at end of input. -/
def collapseGo (e : StackEntry) : List StackEntry → BTNode
  | [] => buildEntry e
  | p :: rest => collapseGo (mergeEntry e p) rest

/-- Collapse the whole stack at end of input, yielding the root node. -/
def collapseStack : List StackEntry → Option BTNode
  | [] => none
  | e :: rest => some (collapseGo e rest)

/-- One body line of the parser loop. -/
def parseStep (stack : Option (List StackEntry)) (line : List Char) :
    Option (List StackEntry) :=
  match stack with
  | none => none
  | some st =>
    if pyStrip line = [] then some st
    else
      match parseLinePy line with
      | none => none
      | some lv =>
        match popToParent lv.1 st with
        | none => none
        | some st' => some ((lv.1, lv.2.1, lv.2.2, []) :: st')

/-- `parse_bt_dsl` of `src/main.py` with the default indent unit 4: strip
the text, split into lines, parse the first line as the root (its level
must be 0 — note the preceding `strip()` already removed any leading
whitespace), then run the stack loop over the remaining lines.  Any
`ValueError`/`IndexError` along the way is caught and yields `None`. -/
def parse_bt_dsl (dsl_text : String) : Option BTNode :=
  let lines := splitLines (pyStrip dsl_text.data)
  match lines with
  | [] => none  -- `if not lines`: unreachable, split never returns []
  | first :: rest =>
    match parseLinePy first with
    | none => none
    | some root =>
      if root.1 ≠ 0 then none
      else
        match rest.foldl parseStep (some [(root.1, root.2.1, root.2.2, [])]) with
        | none => none
        | some st => collapseStack st

/-! ## The condition/action registry (`src/TextGame/bt_nodes.py`)

Each `evaluate` method becomes a function `GameState → Bool`; the
factory `create_condition_node` becomes a dispatch on the name whose
`none` models the `ValueError` raised for unknown names (caught by the
executor, which treats it as a false condition). -/

/-- Python `int(text)` for the ASCII decimal strings the DSL uses
(optional sign, nonempty digit run, surrounding whitespace allowed);
anything else raises, embedded as `none`. -/
def parseIntPy (text : String) : Option ℤ :=
  let l := pyStrip text.data
  let core : Option (Bool × List Char) :=
    match l with
    | '-' :: rest => some (true, rest)
    | '+' :: rest => some (false, rest)
    | rest => some (false, rest)
  match core with
  | some (neg, ds) =>
    if ds = [] ∨ ¬ ds.all Char.isDigit then none
    else
      let n := ds.foldl (fun acc c => acc * 10 + (c.toNat - '0'.toNat)) 0
      some (if neg then -(n : ℤ) else (n : ℤ))
  | none => none

/-- `int(param) if param else default` (`param` is falsy when absent or
empty); a malformed number raises, embedded as `none`. -/
def intParamD (p : Option String) (dflt : ℤ) : Option ℤ :=
  match p with
  | none => some dflt
  | some str => if str = "" then some dflt else parseIntPy str

/-- `param if param else default` for string parameters. -/
def strParamD (p : Option String) (dflt : String) : String :=
  match p with
  | none => dflt
  | some str => if str = "" then dflt else str

/-- Python `needle in hay` on strings: substring containment. -/
def strIn (needle hay : String) : Bool := decide (needle.data <:+: hay.data)

/-- `IsEnemy.__init__`'s name table. -/
def enemyTypeFromName (name : String) : Option EnemyType :=
  if name = "FireGolem" then some .FIRE_GOLEM
  else if name = "IceWraith" then some .ICE_WRAITH
  else if name = "ThunderDrake" then some .THUNDER_DRAKE
  else none

/-- The element table used by `EnemyWeakTo` / `EnemyResistantTo`. -/
def elementFromName (name : String) : Option Element :=
  if name = "Fire" then some .FIRE
  else if name = "Ice" then some .ICE
  else if name = "Lightning" then some .LIGHTNING
  else none

/-- `HasAilment.__init__`'s name table. -/
def ailmentFromName (name : String) : Option StatusAilment :=
  if name = "Burn" then some .BURN
  else if name = "Freeze" then some .FREEZE
  else if name = "Paralyze" then some .PARALYZE
  else if name = "AttackDown" then some .ATTACK_DOWN
  else if name = "Defending" then some .DEFENDING
  else none

/-- `EnemyHasBuff.__init__`'s name table. -/
def buffFromName (name : String) : Option StatusAilment :=
  if name = "RageBuff" then some .RAGE_BUFF
  else if name = "Enrage" then some .ENRAGE
  else if name = "StormCharge" then some .STORM_CHARGE
  else if name = "FrostAura" then some .FROST_AURA
  else none

/-- `EnemyIsTelegraphing.evaluate`: false when no telegraph is stored (or
it is the falsy empty string), else Python substring containment
`self.action in state.telegraphed_action`; `__init__` strips the
argument. -/
def EnemyIsTelegraphingEval (action : String) (s : GameState) : Bool :=
  let a := pyStripStr action
  match s.telegraphed_action with
  | none => false
  | some t => if t = "" then false else strIn a t

/-- `EnemyLastAction.evaluate`: false when no last action is recorded,
else substring containment `self.action in state.last_enemy_action`. -/
def EnemyLastActionEval (action : String) (s : GameState) : Bool :=
  let a := pyStripStr action
  match s.last_enemy_action with
  | none => false
  | some t => if t = "" then false else strIn a t

/-- `EnemyUsedRecently.evaluate`: membership in the recent history list
(Python `in` on a list is element equality, not substring). -/
def EnemyUsedRecentlyEval (action : String) (s : GameState) : Bool :=
  let a := pyStripStr action
  if s.action_history = [] then false else s.action_history.contains a

/-- `EnemyInPhase.evaluate`. -/
def EnemyInPhaseEval (phase : String) (s : GameState) : Bool :=
  let ph := pyStripStr phase
  match s.enemy with
  | none => false
  | some e =>
    if ph = "Healthy" then e.hpPctGt 60 1
    else if ph = "Wounded" then (e.hpPctGt 30 1 && !(e.hpPctGt 60 1))
    else if ph = "Critical" then !(e.hpPctGt 30 1)
    else false

/-- `IsPlayerHPLevel.evaluate` (thresholds 33.33 and 66.67, hundredths). -/
def IsPlayerHPLevelEval (level : String) (s : GameState) : Bool :=
  let lv := pyStripStr level
  if lv = "Low" then s.player.hpPctLt 3333 100
  else if lv = "Mid" then (s.player.hpPctGe 3333 100 && s.player.hpPctLt 6667 100)
  else if lv = "High" then s.player.hpPctGe 6667 100
  else false

/-- `IsEnemyHPLevel.evaluate`. -/
def IsEnemyHPLevelEval (level : String) (s : GameState) : Bool :=
  let lv := pyStripStr level
  match s.enemy with
  | none => false
  | some e =>
    if lv = "Low" then e.hpPctLt 3333 100
    else if lv = "Mid" then (e.hpPctGe 3333 100 && e.hpPctLt 6667 100)
    else if lv = "High" then e.hpPctGe 6667 100
    else false

/-- `create_condition_node` + the matching `evaluate`: the closed
condition vocabulary as one dispatch.  `none` models the `ValueError`
for an unknown name or a malformed integer argument (the executor
catches it and returns false). -/
def evalCondition (name : String) (p : Option String) (s : GameState) :
    Option Bool :=
  if name = "HasTP" then
    (intParamD p 30).map (fun t => decide (s.player_resources.tp ≥ t))
  else if name = "HasMP" then
    (intParamD p 20).map (fun t => decide (s.player_resources.mp ≥ t))
  else if name = "IsTPLow" then
    (intParamD p 30).map (fun t => decide (s.player_resources.tp < t))
  else if name = "IsMPLow" then
    (intParamD p 30).map (fun t => decide (s.player_resources.mp < t))
  else if name = "IsPlayerHPLow" then
    (intParamD p 30).map (fun t => s.player.hpPctLt t 1)
  else if name = "IsPlayerHPHigh" then
    (intParamD p 70).map (fun t => s.player.hpPctGt t 1)
  else if name = "IsEnemyHPLow" then
    (intParamD p 30).map (fun t =>
      match s.enemy with
      | none => false
      | some e => e.hpPctLt t 1)
  else if name = "IsEnemyHPHigh" then
    (intParamD p 70).map (fun t =>
      match s.enemy with
      | none => false
      | some e => e.hpPctGt t 1)
  else if name = "IsPlayerHPLevel" then
    some (IsPlayerHPLevelEval (strParamD p "Low") s)
  else if name = "IsEnemyHPLevel" then
    some (IsEnemyHPLevelEval (strParamD p "Low") s)
  else if name = "IsEnemy" then
    some (match s.enemy_type, enemyTypeFromName (pyStripStr (strParamD p "FireGolem")) with
      | some et, some want => decide (et = want)
      | _, _ => false)
  else if name = "EnemyWeakTo" then
    some (match s.enemy, elementFromName (pyStripStr (strParamD p "Fire")) with
      | some e, some el => decide (ELEMENTAL_WEAKNESS e.element = some el)
      | _, _ => false)
  else if name = "EnemyResistantTo" then
    some (match s.enemy, elementFromName (pyStripStr (strParamD p "Fire")) with
      | some e, some el => decide (e.element = el)
      | _, _ => false)
  else if name = "HasScannedEnemy" then some s.scanned
  else if name = "HasAilment" then
    some (match ailmentFromName (pyStripStr (strParamD p "Burn")) with
      | some a => s.has_status "player" a
      | none => false)
  else if name = "EnemyHasBuff" then
    some (match buffFromName (pyStripStr (strParamD p "RageBuff")) with
      | some b => s.has_status "enemy" b
      | none => false)
  else if name = "IsFrozen" then some (s.has_status "player" .FREEZE)
  else if name = "IsParalyzed" then some (s.has_status "player" .PARALYZE)
  else if name = "CanHeal" then
    some (decide (s.heal_cooldown = 0) && decide (s.player_resources.mp ≥ 30))
  else if name = "EnemyInPhase" then
    some (EnemyInPhaseEval (strParamD p "Healthy") s)
  else if name = "EnemyIsTelegraphing" then
    some (EnemyIsTelegraphingEval (strParamD p "HeavySlam") s)
  else if name = "IsTurnEarly" then
    (intParamD p 3).map (fun t => decide (s.turn_count ≤ t))
  else if name = "EnemyLastAction" then
    some (EnemyLastActionEval (strParamD p "Slam") s)
  else if name = "EnemyUsedRecently" then
    some (EnemyUsedRecentlyEval (strParamD p "RageBuff") s)
  else none

/-- `create_action_node`: closed action vocabulary, legacy names
included; `none` models the `ValueError` for unknown names. -/
def actionFromName (name : String) : Option PlayerAction :=
  if name = "Attack" then some .ATTACK
  else if name = "PowerStrike" then some .POWER_STRIKE
  else if name = "FireSpell" then some .FIRE_SPELL
  else if name = "IceSpell" then some .ICE_SPELL
  else if name = "LightningSpell" then some .LIGHTNING_SPELL
  else if name = "Defend" then some .DEFEND
  else if name = "Heal" then some .HEAL
  else if name = "Scan" then some .SCAN
  else if name = "LightAttack" then some .ATTACK
  else if name = "HeavyAttack" then some .POWER_STRIKE
  else none

/-! ## The tree interpreter (`src/TextGame/bt_executor.py`)

`BTExecutor` walks the parsed tree against a state snapshot and returns
at most one action.  It never writes to the `GameState`: conditions only
read it and action nodes return an enum constant, so the embedding is a
pure function of the state. -/

/-- `BTExecutor._evaluate_condition`: split `Name(arg)` at the first
`'('` and the last `')'` (a missing `')'` raises — caught, false), then
dispatch into the registry; any error yields false. -/
def evalConditionNode (node : BTNode) (s : GameState) : Bool :=
  match node.param with
  | none => false
  | some p =>
    if p = "" then false  -- `if not node.param`
    else
      let cs := p.data
      if cs.contains '(' then
        let name := cs.takeWhile (fun c => c ≠ '(')
        let openIdx := name.length
        match (cs.reverse.takeWhile (fun c => c ≠ ')')).length with
        | closeFromEnd =>
          if closeFromEnd = cs.length then false  -- no ')': rindex raises
          else
            let closeIdx := cs.length - 1 - closeFromEnd
            let arg := (cs.drop (openIdx + 1)).take (closeIdx - (openIdx + 1))
            match evalCondition ⟨name⟩ (some ⟨arg⟩) s with
            | some b => b
            | none => false
      else
        match evalCondition p none s with
        | some b => b
        | none => false

/-- `BTExecutor._execute_action`: strip the parameter, drop a trailing
`(...)`, resolve through the action registry; errors yield `None`. -/
def execActionNode (node : BTNode) : Option PlayerAction :=
  match node.param with
  | none => none
  | some p =>
    if p = "" then none  -- `if not node.param`
    else
      let t := pyStrip p.data
      let t := if t.contains '(' then t.takeWhile (fun c => c ≠ '(') else t
      actionFromName ⟨t⟩

mutual

/-- `BTExecutor._execute_node`: dispatch on the lower-cased node kind. -/
def execNode (node : BTNode) (s : GameState) : Option PlayerAction :=
  match node with
  | .mk t p cs =>
    let node_type := lowerStr t
    if node_type = "root" then
      match cs with
      | [] => none
      | c :: _ => execNode c s
    else if node_type = "selector" then execSelector cs s
    else if node_type = "sequence" then execSequence cs s none
    else if node_type = "condition" then none  -- evaluated, returns no action
    else if node_type = "task" ∨ node_type = "action" then
      execActionNode (.mk t p cs)
    else none

/-- The selector loop: first child returning an action wins. -/
def execSelector (cs : List BTNode) (s : GameState) : Option PlayerAction :=
  match cs with
  | [] => none
  | c :: rest =>
    match execNode c s with
    | some a => some a
    | none => execSelector rest s

/-- The sequence loop with its `last_result` accumulator: a false
condition child aborts with `None`; a non-condition child's action
becomes the new accumulator, and a failing non-final non-condition child
aborts with `None` (a failing final child falls through to the
accumulator). -/
def execSequence (cs : List BTNode) (s : GameState)
    (last : Option PlayerAction) : Option PlayerAction :=
  match cs with
  | [] => last
  | c :: rest =>
    if lowerStr c.node_type = "condition" then
      if evalConditionNode c s then execSequence rest s last else none
    else
      match execNode c s with
      | some r => execSequence rest s (some r)
      | none => if rest.isEmpty then last else none

end

/-! ## Notions the claims quantify over -/

/-- The operations a combatant's status list undergoes during a session:
`add_status`, `remove_status` and the per-turn tick. -/
inductive StatusOp where
  | add (e : StatusEffect)
  | remove (a : StatusAilment)
  | tick

/-- Apply one status-list operation. -/
def applyStatusOp (l : List StatusEffect) : StatusOp → List StatusEffect
  | .add e => addStatusList l e
  | .remove a => removeStatusList l a
  | .tick => (tickStatusList l).1

/-- Run a sequence of status-list operations from the empty list every
combatant starts with. -/
def runStatusOps (ops : List StatusOp) : List StatusEffect :=
  ops.foldl applyStatusOp []

/-- At most one instance per ailment tag. -/
def noDupAilments (l : List StatusEffect) : Prop :=
  (l.map (fun e => e.ailment)).Nodup

/-- Every Freeze instance in the list has duration at most 1. -/
def freezeOkList (l : List StatusEffect) : Prop :=
  ∀ ef ∈ l, ef.ailment = .FREEZE → ef.duration ≤ 1

/-- No Freeze instance at all. -/
def noFreezeList (l : List StatusEffect) : Prop :=
  ∀ ef ∈ l, ef.ailment ≠ .FREEZE

/-- Every Freeze the player carries (between turns) has duration at most
1 — the invariant `process_turn` maintains. -/
def playerFreezeBounded (s : GameState) : Prop :=
  freezeOkList s.player_status

/-- The states a combat session can reach: a `DungeonGame.__init__` state
followed by any number of `process_turn` calls (with any actions and any
random outcomes). -/
inductive Reachable : GameState → Prop
  | init (et : EnemyType) : Reachable (initialState et)
  | step (s : GameState) (a : PlayerAction) (o : Oracle) :
      Reachable s → Reachable (processTurn s a o).state

/-- The sequence loop reaches past this prefix: every condition child in
it evaluates true and every non-condition child yields an action. -/
def seqPrefixPasses (s : GameState) (pre : List BTNode) : Prop :=
  ∀ n ∈ pre,
    (lowerStr n.node_type = "condition" → evalConditionNode n s = true) ∧
    (lowerStr n.node_type ≠ "condition" → execNode n s ≠ none)

/-- The TP pool. -/
def poolTP (s : GameState) : ℤ := s.player_resources.tp

/-- The MP pool. -/
def poolMP (s : GameState) : ℤ := s.player_resources.mp

/-- The resource contract of one costed action `a` paying `c` from `pool`
(the other pool untouched): with the player not frozen (and Heal off
cooldown), a short pool is a full no-op with the descriptive failure
result, a sufficient pool is debited by exactly the cost, and neither
pool can go negative. -/
def CostedActionOk (a : PlayerAction) (pool other : GameState → ℤ)
    (c : ℤ) (failMsg : String) : Prop :=
  ∀ (s : GameState) (o : Oracle),
    s.has_status "player" .FREEZE = false →
    (a = .HEAL → s.heal_cooldown ≤ 0) →
    (pool s < c →
      executePlayerAction s a o = (s, { action := a.value, message := failMsg })) ∧
    (pool s ≥ c →
      pool (executePlayerAction s a o).1 = pool s - c ∧
      other (executePlayerAction s a o).1 = other s ∧
      (executePlayerAction s a o).2.success = true) ∧
    (0 ≤ pool s → 0 ≤ pool (executePlayerAction s a o).1) ∧
    (0 ≤ other s → 0 ≤ other (executePlayerAction s a o).1)

/-- The `C7` scenario's enemy with its current element Fire, all other
inputs as at session start against the FireGolem archetype. -/
def c7FireState : GameState :=
  (initialState .FIRE_GOLEM).updateEnemy (fun e => { e with element := .FIRE })

/-- The `C7` scenario's otherwise-identical Neutral-element enemy. -/
def c7NeutralState : GameState := initialState .FIRE_GOLEM

/-! # Theorems -/

/-! ## C2 — the elemental multiplier table -/

/-- C2, counterexample: the claim asserts
`multiplier(Fire, Ice) = 1.5`, but `ELEMENTAL_WEAKNESS` is the
three-element cycle Fire→Ice→Lightning→Fire, so a Fire attack against an
Ice target falls into the *resisted* branch and yields `0.5`. -/
theorem C2_counterexample_fire_vs_ice :
    calculate_elemental_multiplier .FIRE .ICE = 1/2 ∧
    ¬ calculate_elemental_multiplier .FIRE .ICE = 3/2 := by
  unfold calculate_elemental_multiplier
  rw [show elementalMultiplierX2 .FIRE .ICE = 1 from by decide]
  constructor <;> norm_num

/-- C2, amended: the weakness relation is the cycle
Fire→Ice→Lightning→Fire, not a symmetric Fire↔Ice pair: `multiplier(Ice,
Fire) = 1.5` but `multiplier(Fire, Ice) = 0.5`; `multiplier(X, Neutral) =
multiplier(Neutral, X) = 1.0` holds for every element X. -/
theorem C2_amended_multiplier_table :
    calculate_elemental_multiplier .ICE .FIRE = 3/2 ∧
    calculate_elemental_multiplier .FIRE .ICE = 1/2 ∧
    (∀ x : Element, calculate_elemental_multiplier x .NEUTRAL = 1 ∧
      calculate_elemental_multiplier .NEUTRAL x = 1) := by
  refine ⟨?_, ?_, ?_⟩
  · unfold calculate_elemental_multiplier
    rw [show elementalMultiplierX2 .ICE .FIRE = 3 from by decide]
    norm_num
  · unfold calculate_elemental_multiplier
    rw [show elementalMultiplierX2 .FIRE .ICE = 1 from by decide]
    norm_num
  · intro x
    constructor
    · unfold calculate_elemental_multiplier
      rw [show elementalMultiplierX2 x .NEUTRAL = 2 from by cases x <;> decide]
      norm_num
    · unfold calculate_elemental_multiplier
      rw [show elementalMultiplierX2 .NEUTRAL x = 2 from by cases x <;> decide]
      norm_num

/-! ## C7 — IceSpell against a Fire enemy vs a Neutral enemy -/

/-- C7, counterexample: with random outcomes pinned (no proc, no
paralysis), IceSpell against the Fire-element enemy removes 34 HP while
against the otherwise-identical Neutral enemy it removes 20 HP — not a
1.5 ratio, because the flat defense 8 is subtracted *after* the
elemental multiplier. -/
theorem C7_counterexample_ratio_after_defense :
    (executePlayerAction c7FireState .ICE_SPELL {}).2.damage = 34 ∧
    (executePlayerAction c7NeutralState .ICE_SPELL {}).2.damage = 20 ∧
    ¬ ((executePlayerAction c7FireState .ICE_SPELL {}).2.damage : ℚ) =
        3/2 * ((executePlayerAction c7NeutralState .ICE_SPELL {}).2.damage : ℚ) := by
  have h1 : (executePlayerAction c7FireState .ICE_SPELL {}).2.damage = 34 := by decide
  have h2 : (executePlayerAction c7NeutralState .ICE_SPELL {}).2.damage = 20 := by decide
  refine ⟨h1, h2, ?_⟩
  rw [h1, h2]
  norm_num

/-- C7, amended: the 1.5 factor is exact for the *pre-defense* damage
computed by `_calculate_damage` (42 against Fire vs 28 against Neutral,
and `42 = 1.5 * 28`); the damage finally dealt subtracts the defense 8
after the multiplier (34 vs 20), so only the pre-defense figures are in
the 1.5 ratio. -/
theorem C7_amended_pre_defense_ratio :
    (calcDamage c7FireState 28 .ICE "player" {}).2 = 42 ∧
    (calcDamage c7NeutralState 28 .ICE "player" {}).2 = 28 ∧
    ((42 : ℚ) = 3/2 * 28) ∧
    (executePlayerAction c7FireState .ICE_SPELL {}).2.damage =
      42 - createEnemy.defense ∧
    (executePlayerAction c7NeutralState .ICE_SPELL {}).2.damage =
      28 - createEnemy.defense := by
  refine ⟨by decide, by decide, by norm_num, by decide, by decide⟩

/-! ## C10 — telegraph-match and last-action conditions are substring
containment -/

/-- C10: `EnemyIsTelegraphing(a)` is true exactly when a (non-empty)
telegraphed action is stored and the stripped argument occurs inside it
as a substring, and `EnemyLastAction(a)` likewise against the recorded
last enemy action — substring containment, not equality: the strict
substring `"Slam"` matches a stored `"HeavySlam"`. -/
theorem C10_substring_telegraph_and_last_action :
    (∀ (a : String) (s : GameState),
      EnemyIsTelegraphingEval a s = true ↔
        ∃ t, s.telegraphed_action = some t ∧ t ≠ "" ∧
          (pyStripStr a).data <:+: t.data) ∧
    (∀ (a : String) (s : GameState),
      EnemyLastActionEval a s = true ↔
        ∃ t, s.last_enemy_action = some t ∧ t ≠ "" ∧
          (pyStripStr a).data <:+: t.data) ∧
    EnemyIsTelegraphingEval "Slam"
      { initialState .FIRE_GOLEM with telegraphed_action := some "HeavySlam" } = true ∧
    EnemyLastActionEval "Slam"
      { initialState .FIRE_GOLEM with last_enemy_action := some "HeavySlam" } = true ∧
    ("Slam" : String) ≠ "HeavySlam" := by
  refine ⟨?_, ?_, by decide, by decide, by decide⟩
  · intro a s
    cases h : s.telegraphed_action with
    | none => simp [EnemyIsTelegraphingEval, h]
    | some t =>
      by_cases ht : t = "" <;>
        simp [EnemyIsTelegraphingEval, strIn, h, ht]
  · intro a s
    cases h : s.last_enemy_action with
    | none => simp [EnemyLastActionEval, h]
    | some t =>
      by_cases ht : t = "" <;>
        simp [EnemyLastActionEval, strIn, h, ht]

/-! ## C6 — the parser's treatment of the first line -/

/-- C6, counterexample: `parse_bt_dsl` does not fail on an indented or
non-`root` first line.  `"    selector : x"` — first non-blank line with
indentation depth 1 and kind `selector` — parses successfully (the text
is stripped first, and the kind of the first line is never examined),
directly contradicting both failure conditions of the claim. -/
theorem C6_counterexample_first_line_not_checked :
    (parse_bt_dsl "    selector : x").isSome = true ∧
    Option.map BTNode.node_type (parse_bt_dsl "    selector : x") =
      some "selector" ∧
    (parse_bt_dsl "selector : x").isSome = true ∧
    Option.map BTNode.node_type (parse_bt_dsl "selector : x") =
      some "selector" ∧
    ("selector" : String) ≠ "root" := by
  decide

/-- Leading whitespace of the whole DSL text is removed by the initial
`strip()`, so prepending indentation before the first non-blank line
cannot change the parse result. -/
theorem pyStrip_leading_spaces (t : String) :
    pyStrip ("    " ++ t).data = pyStrip t.data := by
  have h : ("    " ++ t).data = ' ' :: ' ' :: ' ' :: ' ' :: t.data := by
    rw [String.data_append]; rfl
  rw [pyStrip, pyStrip, h]
  simp [List.dropWhile_cons, show (' ').isWhitespace = true from rfl]

/-- C6, amended: `parse_bt_dsl` strips the whole text before splitting
it into lines, so the first non-blank line is always parsed at depth 0 —
its original indentation can never cause a failure (prepending an indent
leaves the result unchanged) — and the first line's node kind is never
checked, so a non-`root` first line parses successfully; a first line of
depth 0 and kind `root` indeed does not fail for this reason. -/
theorem C6_amended_first_line_never_rejected :
    (∀ t : String, parse_bt_dsl ("    " ++ t) = parse_bt_dsl t) ∧
    (parse_bt_dsl "task : Attack()").isSome = true ∧
    Option.map BTNode.node_type (parse_bt_dsl "task : Attack()") =
      some "task" ∧
    (parse_bt_dsl "root : main").isSome = true ∧
    Option.map BTNode.node_type (parse_bt_dsl "root : main") = some "root" := by
  refine ⟨?_, by decide, by decide, by decide, by decide⟩
  intro t
  simp only [parse_bt_dsl, pyStrip_leading_spaces]

/-! ## C1 — the enemy executes the telegraphed action -/

/-- Helper: the Fire Golem executor reports exactly the action it was
asked to run. -/
theorem executeFireGolemAction_action (s : GameState) (a : String) (o : Oracle) :
    (executeFireGolemAction s a o).2.action = a := by
  unfold executeFireGolemAction
  dsimp only
  repeat' split
  all_goals rfl

/-- Helper: the Ice Wraith executor reports exactly the action it was
asked to run. -/
theorem executeIceWraithAction_action (s : GameState) (a : String) (o : Oracle) :
    (executeIceWraithAction s a o).2.action = a := by
  unfold executeIceWraithAction
  dsimp only
  repeat' split
  all_goals rfl

/-- Helper: the Thunder Drake executor reports exactly the action it was
asked to run. -/
theorem executeThunderDrakeAction_action (s : GameState) (a : String) (o : Oracle) :
    (executeThunderDrakeAction s a o).2.action = a := by
  unfold executeThunderDrakeAction
  dsimp only
  repeat' split
  all_goals rfl

/-- C1, counterexample: on the very first `process_turn` call of a
session the combat is active, the enemy alive and unfrozen, yet no
action was telegraphed at the tail of any previous turn
(`telegraphed_action` is `None`) — and the enemy half still executes an
action, selected freshly: with identical histories the executed action
follows the random selection (`Slam` for one draw, `HeavySlam` for
another). -/
theorem C1_counterexample_fresh_selection_on_empty_telegraph :
    (initialState .FIRE_GOLEM).telegraphed_action = none ∧
    (processTurn (initialState .FIRE_GOLEM) .ATTACK {}).result =
      CombatResult.CONTINUE ∧
    Option.map (fun r => r.action)
      (processTurn (initialState .FIRE_GOLEM) .ATTACK {}).enemy_info =
      some "Slam" ∧
    Option.map (fun r => r.action)
      (processTurn (initialState .FIRE_GOLEM) .ATTACK { execPick := 1 }).enemy_info =
      some "HeavySlam" := by
  decide

/-- Helper: the per-archetype dispatch reports exactly the action it was
asked to run. -/
theorem enemyDispatch_action (s : GameState) (a : String) (o : Oracle) :
    (enemyDispatch s a o).2.action = a := by
  unfold enemyDispatch
  repeat' split
  all_goals
    simp [executeFireGolemAction_action, executeIceWraithAction_action,
      executeThunderDrakeAction_action]

/-- Helper: damage application does not change the reported action. -/
theorem applyEnemyDamage_action (sr : GameState × EnemyResult) :
    (applyEnemyDamage sr).2.action = sr.2.action := by
  unfold applyEnemyDamage
  dsimp only
  repeat' split
  all_goals rfl

/-- Helper: the Frost Aura block does not change the reported action. -/
theorem applyFrostAura_action (sr : GameState × EnemyResult) (o : Oracle) :
    (applyFrostAura sr o).2.action = sr.2.action := by
  unfold applyFrostAura
  dsimp only
  split
  all_goals rfl

/-- C1, amended: whenever a (non-empty) action is telegraphed, the enemy
half executes exactly that action, for every random outcome — no fresh
selection can influence it. -/
theorem C1_amended_executes_telegraph (s : GameState) (o : Oracle) (a : String)
    (e : CombatStats) (henemy : s.enemy = some e) (halive : e.is_alive = true)
    (hfrozen : s.has_status "enemy" .FREEZE = false)
    (htele : s.telegraphed_action = some a) (hne : a ≠ "") :
    (executeEnemyTurn s o).2.action = a := by
  unfold executeEnemyTurn
  rw [henemy, htele]
  simp only [halive, hfrozen, Bool.false_eq_true, not_false_eq_true,
    not_true_eq_false, if_false, if_true, Bool.not_true, reduceIte, hne]
  exact (applyFrostAura_action ..).trans
    ((applyEnemyDamage_action ..).trans (enemyDispatch_action ..))

/-- C1, witness: with `HeavySlam` telegraphed at session start against
the Fire Golem, the enemy half executes exactly `HeavySlam`. -/
theorem C1_amended_executes_telegraph_witness :
    (executeEnemyTurn
      { initialState .FIRE_GOLEM with telegraphed_action := some "HeavySlam" }
      {}).2.action = "HeavySlam" :=
  C1_amended_executes_telegraph
    { initialState .FIRE_GOLEM with telegraphed_action := some "HeavySlam" }
    {} "HeavySlam" createEnemy (by decide) (by decide) (by decide) (by decide)
    (by decide)

/-! ## C8 — statuses never stack: one instance per ailment tag -/

/-- Helper: after `add_status`, the instances carrying the new effect's
tag are exactly the newly added effect. -/
theorem addStatusList_filter_eq (l : List StatusEffect) (e : StatusEffect) :
    (addStatusList l e).filter (fun x => decide (x.ailment = e.ailment)) = [e] := by
  unfold addStatusList
  rw [List.filter_append]
  have h1 : (l.filter (fun x => decide (x.ailment ≠ e.ailment))).filter
      (fun x => decide (x.ailment = e.ailment)) = [] := by
    induction l with
    | nil => rfl
    | cons a t ih =>
      by_cases h : a.ailment = e.ailment <;> simp [List.filter_cons, h, ih]
  rw [h1]
  simp [List.filter_cons]

/-- Helper: a sublist keeps distinct ailment tags distinct. -/
theorem noDupAilments_sublist {l' l : List StatusEffect} (h : List.Sublist l' l)
    (hl : noDupAilments l) : noDupAilments l' :=
  List.Nodup.sublist (h.map (fun e => e.ailment)) hl

/-- Helper: `add_status` preserves (indeed re-establishes) tag
distinctness: the old carriers of the tag are dropped first. -/
theorem noDupAilments_add (l : List StatusEffect) (e : StatusEffect)
    (h : noDupAilments l) : noDupAilments (addStatusList l e) := by
  unfold noDupAilments addStatusList
  rw [List.map_append]
  apply List.Nodup.append
  · exact List.Nodup.sublist ((List.filter_sublist l).map (fun x => x.ailment)) h
  · exact List.nodup_singleton _
  · intro x hx hy
    simp only [List.map_cons, List.map_nil, List.mem_singleton] at hy
    subst hy
    simp only [List.mem_map, List.mem_filter, decide_not] at hx
    obtain ⟨ef, ⟨_, hne⟩, hEq⟩ := hx
    simp only [Bool.not_eq_eq_eq_not, Bool.not_true, decide_eq_false_iff_not] at hne
    exact hne hEq

/-- Helper: `remove_status` preserves tag distinctness. -/
theorem noDupAilments_remove (l : List StatusEffect) (a : StatusAilment)
    (h : noDupAilments l) : noDupAilments (removeStatusList l a) :=
  noDupAilments_sublist (List.filter_sublist l) h

/-- Helper: the per-turn tick preserves tag distinctness (durations
change, tags do not; expiring effects are only removed). -/
theorem noDupAilments_tick (l : List StatusEffect)
    (h : noDupAilments l) : noDupAilments (tickStatusList l).1 := by
  unfold noDupAilments tickStatusList
  have hsub : List.Sublist
      (((l.map (fun e => { e with duration := e.duration - 1 })).filter
        (fun e => decide (e.duration > 0))).map (fun e => e.ailment))
      (l.map (fun e => e.ailment)) := by
    have h1 := (@List.filter_sublist StatusEffect
      (fun e => decide (e.duration > 0))
      (l.map (fun e : StatusEffect => { e with duration := e.duration - 1 }))).map
      (fun e : StatusEffect => e.ailment)
    simpa [List.map_map, Function.comp] using h1
  exact List.Nodup.sublist hsub h

/-- Helper: every status-list operation preserves tag distinctness. -/
theorem noDupAilments_applyOp (l : List StatusEffect) (op : StatusOp)
    (h : noDupAilments l) : noDupAilments (applyStatusOp l op) := by
  cases op with
  | add e => exact noDupAilments_add l e h
  | remove a => exact noDupAilments_remove l a h
  | tick => exact noDupAilments_tick l h

/-- C8: starting from the empty status list every combatant begins with,
any sequence of `add_status` / `remove_status` / tick operations leaves
at most one active instance per ailment tag; and re-applying an ailment
replaces the old instance — the instances carrying the new effect's tag
afterwards are exactly the new effect, whose duration and magnitude
therefore win. -/
theorem C8_one_instance_per_ailment :
    (∀ ops : List StatusOp, noDupAilments (runStatusOps ops)) ∧
    (∀ (l : List StatusEffect) (e : StatusEffect),
      (addStatusList l e).filter (fun x => decide (x.ailment = e.ailment)) = [e]) := by
  constructor
  · intro ops
    unfold runStatusOps
    have h : ∀ l, noDupAilments l → noDupAilments (ops.foldl applyStatusOp l) := by
      induction ops with
      | nil => intro l hl; exact hl
      | cons op rest ih =>
        intro l hl
        exact ih _ (noDupAilments_applyOp _ _ hl)
    exact h [] (by simp [noDupAilments])
  · exact addStatusList_filter_eq

/-! ## C5 — turn counter and the turn limit

The frame lemmas below record that no sub-step of a turn ever touches
`turn_count`: only the increment at the very top of `process_turn` does. -/

/-- Status-list writes leave the turn counter alone. -/
theorem setStatusList_turn_count (s : GameState) (t : String)
    (l : List StatusEffect) : (s.setStatusList t l).turn_count = s.turn_count := by
  unfold GameState.setStatusList
  split <;> rfl

/-- `add_status` leaves the turn counter alone. -/
theorem add_status_turn_count (s : GameState) (t : String) (e : StatusEffect) :
    (s.add_status t e).turn_count = s.turn_count :=
  setStatusList_turn_count ..

/-- `remove_status` leaves the turn counter alone. -/
theorem remove_status_turn_count (s : GameState) (t : String)
    (a : StatusAilment) : (s.remove_status t a).turn_count = s.turn_count :=
  setStatusList_turn_count ..

/-- Enemy-stat updates leave the turn counter alone. -/
theorem updateEnemy_turn_count (s : GameState) (f : CombatStats → CombatStats) :
    (s.updateEnemy f).turn_count = s.turn_count := by
  unfold GameState.updateEnemy
  split <;> rfl

/-- `_calculate_damage` leaves the turn counter alone. -/
theorem calcDamage_turn_count (s : GameState) (b : ℤ) (el : Element)
    (att : String) (o : Oracle) :
    (calcDamage s b el att o).1.turn_count = s.turn_count := by
  unfold calcDamage
  dsimp only
  repeat' split
  all_goals simp [remove_status_turn_count]

/-- The pre-action phase leaves the turn counter alone. -/
theorem tickPhase_turn_count (s : GameState) :
    (tickPhase s).turn_count = s.turn_count := by
  unfold tickPhase
  dsimp only
  have hfold1 : ∀ (l : List (StatusAilment × ℤ)) (s : GameState),
      (l.foldl (fun s ev => { s with player := (s.player.take_damage ev.2).1 }) s).turn_count =
        s.turn_count := by
    intro l
    induction l with
    | nil => intro s; rfl
    | cons x t ih => intro s; simpa using ih _
  have hfold2 : ∀ (l : List (StatusAilment × ℤ)) (s : GameState),
      (l.foldl (fun s ev => s.updateEnemy (fun e => (e.take_damage ev.2).1)) s).turn_count =
        s.turn_count := by
    intro l
    induction l with
    | nil => intro s; rfl
    | cons x t ih =>
      intro s
      rw [List.foldl_cons, ih, updateEnemy_turn_count]
  rw [hfold2, hfold1]
  repeat' split
  all_goals simp [updateEnemy_turn_count]

/-- The apply-damage block leaves the turn counter alone. -/
theorem applyPlayerDamage_turn_count (sr : GameState × PlayerResult) :
    (applyPlayerDamage sr).1.turn_count = sr.1.turn_count := by
  unfold applyPlayerDamage
  dsimp only
  repeat' split
  all_goals rfl

/-- The player-action ladder leaves the turn counter alone. -/
theorem playerDispatch_turn_count (s : GameState) (a : PlayerAction)
    (o : Oracle) : (playerDispatch s a o).1.turn_count = s.turn_count := by
  unfold playerDispatch
  cases a
  all_goals dsimp only
  all_goals repeat' split
  all_goals
    simp only [calcDamage_turn_count, add_status_turn_count]

/-- The player-action dispatch leaves the turn counter alone. -/
theorem playerActionResolve_turn_count (s : GameState) (a : PlayerAction)
    (o : Oracle) : (playerActionResolve s a o).1.turn_count = s.turn_count := by
  unfold playerActionResolve
  rw [applyPlayerDamage_turn_count, playerDispatch_turn_count]

/-- `execute_player_action` leaves the turn counter alone. -/
theorem executePlayerAction_turn_count (s : GameState) (a : PlayerAction)
    (o : Oracle) : (executePlayerAction s a o).1.turn_count = s.turn_count := by
  unfold executePlayerAction playerFrozenSkip
  split
  · exact remove_status_turn_count ..
  · exact playerActionResolve_turn_count ..

/-- Enemy action selection leaves the turn counter alone. -/
theorem selectEnemyAction_turn_count (s : GameState) (pick : Nat) :
    (selectEnemyAction s pick).1.turn_count = s.turn_count := by
  unfold selectEnemyAction
  repeat' split
  all_goals simp [add_status_turn_count]

/-- The Fire Golem executor leaves the turn counter alone. -/
theorem executeFireGolemAction_turn_count (s : GameState) (a : String)
    (o : Oracle) : (executeFireGolemAction s a o).1.turn_count = s.turn_count := by
  unfold executeFireGolemAction
  dsimp only
  repeat' split
  all_goals
    simp [calcDamage_turn_count, add_status_turn_count, updateEnemy_turn_count]

/-- The Ice Wraith executor leaves the turn counter alone. -/
theorem executeIceWraithAction_turn_count (s : GameState) (a : String)
    (o : Oracle) : (executeIceWraithAction s a o).1.turn_count = s.turn_count := by
  unfold executeIceWraithAction
  dsimp only
  repeat' split
  all_goals
    simp_all [calcDamage_turn_count, add_status_turn_count, updateEnemy_turn_count,
      apply_ite Prod.fst, apply_ite GameState.turn_count]

/-- The Thunder Drake executor leaves the turn counter alone. -/
theorem executeThunderDrakeAction_turn_count (s : GameState) (a : String)
    (o : Oracle) : (executeThunderDrakeAction s a o).1.turn_count = s.turn_count := by
  unfold executeThunderDrakeAction
  dsimp only
  repeat' split
  all_goals
    simp_all [calcDamage_turn_count, add_status_turn_count, updateEnemy_turn_count,
      apply_ite Prod.fst, apply_ite GameState.turn_count]

/-- The per-archetype dispatch leaves the turn counter alone. -/
theorem enemyDispatch_turn_count (s : GameState) (a : String) (o : Oracle) :
    (enemyDispatch s a o).1.turn_count = s.turn_count := by
  unfold enemyDispatch
  repeat' split
  all_goals
    simp [executeFireGolemAction_turn_count, executeIceWraithAction_turn_count,
      executeThunderDrakeAction_turn_count]

/-- Enemy damage application leaves the turn counter alone. -/
theorem applyEnemyDamage_turn_count (sr : GameState × EnemyResult) :
    (applyEnemyDamage sr).1.turn_count = sr.1.turn_count := by
  unfold applyEnemyDamage
  dsimp only
  repeat' split
  all_goals rfl

/-- The Frost Aura block leaves the turn counter alone. -/
theorem applyFrostAura_turn_count (sr : GameState × EnemyResult) (o : Oracle) :
    (applyFrostAura sr o).1.turn_count = sr.1.turn_count := by
  unfold applyFrostAura
  dsimp only
  split
  · simp [add_status_turn_count]
  · rfl

/-- History recording leaves the turn counter alone. -/
theorem recordEnemyAction_turn_count (s : GameState) (a : String) :
    (recordEnemyAction s a).turn_count = s.turn_count := by
  unfold recordEnemyAction
  split <;> rfl

/-- The telegraph-or-select step leaves the turn counter alone. -/
theorem enemyActionChoice_turn_count (s : GameState) (o : Oracle) :
    (match s.telegraphed_action with
      | some a => if a = "" then selectEnemyAction s o.execPick else (s, a)
      | none => selectEnemyAction s o.execPick).1.turn_count = s.turn_count := by
  repeat' split
  all_goals simp [selectEnemyAction_turn_count]

/-- `execute_enemy_turn` leaves the turn counter alone. -/
theorem executeEnemyTurn_turn_count (s : GameState) (o : Oracle) :
    (executeEnemyTurn s o).1.turn_count = s.turn_count := by
  unfold executeEnemyTurn
  dsimp only
  repeat' split
  all_goals
    simp [remove_status_turn_count, recordEnemyAction_turn_count,
      applyFrostAura_turn_count, applyEnemyDamage_turn_count,
      enemyDispatch_turn_count, enemyActionChoice_turn_count,
      selectEnemyAction_turn_count]

/-- `telegraph_enemy_action` leaves the turn counter alone. -/
theorem telegraphEnemyAction_turn_count (s : GameState) (o : Oracle) :
    (telegraphEnemyAction s o).1.turn_count = s.turn_count := by
  unfold telegraphEnemyAction
  repeat' split
  all_goals
    simp [selectEnemyAction_turn_count, apply_ite Prod.fst,
      apply_ite GameState.turn_count, ite_self]

/-- C5: every `process_turn` call increments `turn_count` by exactly 1,
and it returns the turn-limit terminal outcome exactly when the
incremented counter exceeds `TURN_LIMIT = 35` — never on a call that
stays within the cap, and on every call past it. -/
theorem C5_turn_increment_and_limit (s : GameState) (a : PlayerAction)
    (o : Oracle) (e : CombatStats) (henemy : s.enemy = some e) :
    (processTurn s a o).state.turn_count = s.turn_count + 1 ∧
    ((processTurn s a o).result = .TURN_LIMIT ↔ s.turn_count + 1 > TURN_LIMIT) := by
  unfold processTurn
  by_cases hl : (incTurn s).turn_count > TURN_LIMIT
  · rw [if_pos hl]
    refine ⟨rfl, iff_of_true rfl ?_⟩
    simpa [incTurn] using hl
  · rw [if_neg hl]
    refine ⟨?_, ?_⟩
    · dsimp only
      repeat' split
      all_goals
        simp [telegraphEnemyAction_turn_count, remove_status_turn_count,
          executeEnemyTurn_turn_count, executePlayerAction_turn_count,
          tickPhase_turn_count, incTurn, apply_ite Prod.fst,
          apply_ite GameState.turn_count, ite_self]
    · dsimp only
      repeat' split
      all_goals
        refine iff_of_false (by simp) ?_
      all_goals simpa [incTurn] using hl

/-- C5, witness: at session start the first call moves the counter to 1
and does not end the session; with the counter already at the cap 35,
the next call returns the turn-limit outcome. -/
theorem C5_turn_increment_and_limit_witness :
    (processTurn (initialState .FIRE_GOLEM) .ATTACK {}).state.turn_count = 1 ∧
    ¬ (processTurn (initialState .FIRE_GOLEM) .ATTACK {}).result = .TURN_LIMIT ∧
    (processTurn { initialState .FIRE_GOLEM with turn_count := 35 } .ATTACK
      {}).result = .TURN_LIMIT := by
  have h1 := C5_turn_increment_and_limit (initialState .FIRE_GOLEM) .ATTACK {}
    createEnemy (by decide)
  have h2 := C5_turn_increment_and_limit
    { initialState .FIRE_GOLEM with turn_count := 35 } .ATTACK {}
    createEnemy (by decide)
  refine ⟨?_, ?_, ?_⟩
  · rw [h1.1]; decide
  · intro hc
    have := h1.2.mp hc
    revert this
    decide
  · exact h2.2.mpr (by decide)

/-! ## C3 — a false condition short-circuits the whole sequence

The interpreter is embedded as a pure function of the state snapshot:
the Python `BTExecutor` only reads the `GameState` (conditions evaluate
predicates, action nodes return an enum constant), so "no state
mutation" holds by construction of `execNode`, and the claim's
"no later child evaluated" is captured extensionally: the result does
not depend on what follows the false condition. -/

/-- Helper: once the sequence loop reaches a condition child that
evaluates false, the loop returns `none`, whatever the accumulator and
whatever children follow. -/
theorem execSequence_condition_aborts (s : GameState) (cond : BTNode)
    (hkind : lowerStr cond.node_type = "condition")
    (hfalse : evalConditionNode cond s = false) :
    ∀ (pre : List BTNode), seqPrefixPasses s pre →
      ∀ (post : List BTNode) (last : Option PlayerAction),
        execSequence (pre ++ cond :: post) s last = none := by
  intro pre
  induction pre with
  | nil =>
    intro _ post last
    rw [List.nil_append, execSequence]
    simp [hkind, hfalse]
  | cons n rest ih =>
    intro hpass post last
    have hn := hpass n (by simp)
    have hrest : seqPrefixPasses s rest := fun m hm => hpass m (by simp [hm])
    by_cases hc : lowerStr n.node_type = "condition"
    · have htrue := hn.1 hc
      rw [List.cons_append, execSequence]
      simp only [hc, htrue, if_true, reduceIte]
      exact ih hrest post last
    · have hsome := hn.2 hc
      rcases ho : execNode n s with _ | r
      · exact absurd ho hsome
      · rw [List.cons_append, execSequence]
        simp only [hc, ho, if_false, reduceIte]
        exact ih hrest post (some r)

/-- C3: in a sequence node, a condition child that evaluates false makes
the whole sequence return `none`, and the result is independent of
everything after that condition (no later child can influence it); the
interpreter being a pure function of the snapshot, the state is left
entirely unchanged. -/
theorem C3_sequence_short_circuit (s : GameState) (t : String)
    (p : Option String) (pre post post' : List BTNode) (cond : BTNode)
    (hseq : lowerStr t = "sequence")
    (hkind : lowerStr cond.node_type = "condition")
    (hfalse : evalConditionNode cond s = false)
    (hpre : seqPrefixPasses s pre) :
    execNode (.mk t p (pre ++ cond :: post)) s = none ∧
    execNode (.mk t p (pre ++ cond :: post)) s =
      execNode (.mk t p (pre ++ cond :: post')) s := by
  have h1 : ∀ post'' : List BTNode,
      execNode (.mk t p (pre ++ cond :: post'')) s = none := by
    intro post''
    have h2 : execNode (.mk t p (pre ++ cond :: post'')) s =
        execSequence (pre ++ cond :: post'') s none := by
      rw [execNode.eq_def]
      simp [hseq]
    rw [h2]
    exact execSequence_condition_aborts s cond hkind hfalse pre hpre post'' none
  exact ⟨h1 post, (h1 post).trans (h1 post').symm⟩

/-- C3, witness: at session start, `IsPlayerHPLow(30)` is false (the
player is at full health), so a sequence `HasMP(20); IsPlayerHPLow(30);
Attack()` yields no action, and stays `none` with the tail replaced. -/
theorem C3_sequence_short_circuit_witness :
    execNode (.mk "sequence" none
      [.mk "condition" (some "HasMP(20)") [],
       .mk "condition" (some "IsPlayerHPLow(30)") [],
       .mk "task" (some "Attack()") []]) (initialState .FIRE_GOLEM) = none ∧
    execNode (.mk "sequence" none
      [.mk "condition" (some "HasMP(20)") [],
       .mk "condition" (some "IsPlayerHPLow(30)") [],
       .mk "task" (some "Attack()") []]) (initialState .FIRE_GOLEM) =
      execNode (.mk "sequence" none
        [.mk "condition" (some "HasMP(20)") [],
         .mk "condition" (some "IsPlayerHPLow(30)") []])
        (initialState .FIRE_GOLEM) :=
  C3_sequence_short_circuit (initialState .FIRE_GOLEM) "sequence" none
    [.mk "condition" (some "HasMP(20)") []]
    [.mk "task" (some "Attack()") []] []
    (.mk "condition" (some "IsPlayerHPLow(30)") [])
    (by decide) (by decide) (by decide)
    (by
      intro n hn
      simp only [List.mem_singleton] at hn
      subst hn
      exact ⟨fun _ => by decide, fun h => absurd (by decide) h⟩)

/-! ## C4 — resource-costed actions: gate, exact debit, no negatives -/

/-- Helper: adding an enemy status is a plain `enemy_status` update. -/
theorem add_status_enemy_eq (s : GameState) (e : StatusEffect) :
    s.add_status "enemy" e = { s with enemy_status := addStatusList s.enemy_status e } := by
  unfold GameState.add_status GameState.setStatusList GameState.statusList
  simp

/-- Helper: adding a player status is a plain `player_status` update. -/
theorem add_status_player_eq (s : GameState) (e : StatusEffect) :
    s.add_status "player" e = { s with player_status := addStatusList s.player_status e } := by
  unfold GameState.add_status GameState.setStatusList GameState.statusList
  simp

/-- Helper: `_calculate_damage` never touches the player's resources. -/
theorem calcDamage_player_resources (s : GameState) (b : ℤ) (el : Element)
    (att : String) (o : Oracle) :
    (calcDamage s b el att o).1.player_resources = s.player_resources := by
  unfold calcDamage
  dsimp only
  repeat' split
  all_goals
    simp [GameState.remove_status, GameState.setStatusList]

/-- Helper: the apply-damage block never touches the player's resources. -/
theorem applyPlayerDamage_player_resources (sr : GameState × PlayerResult) :
    (applyPlayerDamage sr).1.player_resources = sr.1.player_resources := by
  unfold applyPlayerDamage
  dsimp only
  repeat' split
  all_goals rfl

/-- Helper: the apply-damage block never changes the success flag. -/
theorem applyPlayerDamage_success (sr : GameState × PlayerResult) :
    (applyPlayerDamage sr).2.success = sr.2.success := by
  unfold applyPlayerDamage
  dsimp only
  repeat' split
  all_goals rfl

/-- Helper: with no damage rolled, the apply-damage block is the
identity. -/
theorem applyPlayerDamage_not_pos (sr : GameState × PlayerResult)
    (h : ¬ sr.2.damage > 0) : applyPlayerDamage sr = sr := by
  unfold applyPlayerDamage
  dsimp only
  rw [if_neg (fun hc => h hc.1)]

/-- Helper: an unfrozen player's action goes through the dispatch ladder
and the apply-damage block. -/
theorem executePlayerAction_not_frozen (s : GameState) (a : PlayerAction) (o : Oracle)
    (hfz : s.has_status "player" .FREEZE = false) :
    executePlayerAction s a o = applyPlayerDamage (playerDispatch s a o) := by
  unfold executePlayerAction playerActionResolve
  simp [hfz]

/-- Helper: Power Strike with short TP is rejected in the ladder. -/
theorem playerDispatch_POWER_STRIKE_fail (s : GameState) (o : Oracle)
    (h : s.player_resources.tp < 30) :
    playerDispatch s .POWER_STRIKE o =
      (s, { action := PlayerAction.POWER_STRIKE.value, message := "Not enough TP!" }) := by
  unfold playerDispatch Resources.spend_tp
  dsimp only
  rw [if_neg (by omega)]

/-- Helper: Power Strike with sufficient TP debits exactly 30 TP. -/
theorem playerDispatch_POWER_STRIKE_spend (s : GameState) (o : Oracle)
    (h : s.player_resources.tp ≥ 30) :
    (playerDispatch s .POWER_STRIKE o).1.player_resources =
      { s.player_resources with tp := s.player_resources.tp - 30 } ∧
    (playerDispatch s .POWER_STRIKE o).2.success = true := by
  unfold playerDispatch Resources.spend_tp
  dsimp only
  rw [if_pos (by omega)]
  dsimp only
  exact ⟨calcDamage_player_resources .., rfl⟩

/-- Helper: Fire Spell with short MP is rejected in the ladder. -/
theorem playerDispatch_FIRE_SPELL_fail (s : GameState) (o : Oracle)
    (h : s.player_resources.mp < 20) :
    playerDispatch s .FIRE_SPELL o =
      (s, { action := PlayerAction.FIRE_SPELL.value, message := "Not enough MP!" }) := by
  unfold playerDispatch Resources.spend_mp
  dsimp only
  rw [if_neg (by omega)]

/-- Helper: Fire Spell with sufficient MP debits exactly 20 MP. -/
theorem playerDispatch_FIRE_SPELL_spend (s : GameState) (o : Oracle)
    (h : s.player_resources.mp ≥ 20) :
    (playerDispatch s .FIRE_SPELL o).1.player_resources =
      { s.player_resources with mp := s.player_resources.mp - 20 } ∧
    (playerDispatch s .FIRE_SPELL o).2.success = true := by
  unfold playerDispatch Resources.spend_mp
  dsimp only
  rw [if_pos (by omega)]
  dsimp only
  constructor
  · split
    all_goals simp [add_status_enemy_eq, calcDamage_player_resources]
  · rfl

/-- Helper: Ice Spell with short MP is rejected in the ladder. -/
theorem playerDispatch_ICE_SPELL_fail (s : GameState) (o : Oracle)
    (h : s.player_resources.mp < 20) :
    playerDispatch s .ICE_SPELL o =
      (s, { action := PlayerAction.ICE_SPELL.value, message := "Not enough MP!" }) := by
  unfold playerDispatch Resources.spend_mp
  dsimp only
  rw [if_neg (by omega)]

/-- Helper: Ice Spell with sufficient MP debits exactly 20 MP. -/
theorem playerDispatch_ICE_SPELL_spend (s : GameState) (o : Oracle)
    (h : s.player_resources.mp ≥ 20) :
    (playerDispatch s .ICE_SPELL o).1.player_resources =
      { s.player_resources with mp := s.player_resources.mp - 20 } ∧
    (playerDispatch s .ICE_SPELL o).2.success = true := by
  unfold playerDispatch Resources.spend_mp
  dsimp only
  rw [if_pos (by omega)]
  dsimp only
  constructor
  · split
    all_goals simp [add_status_enemy_eq, calcDamage_player_resources]
  · rfl

/-- Helper: Lightning Spell with short MP is rejected in the ladder. -/
theorem playerDispatch_LIGHTNING_SPELL_fail (s : GameState) (o : Oracle)
    (h : s.player_resources.mp < 20) :
    playerDispatch s .LIGHTNING_SPELL o =
      (s, { action := PlayerAction.LIGHTNING_SPELL.value, message := "Not enough MP!" }) := by
  unfold playerDispatch Resources.spend_mp
  dsimp only
  rw [if_neg (by omega)]

/-- Helper: Lightning Spell with sufficient MP debits exactly 20 MP. -/
theorem playerDispatch_LIGHTNING_SPELL_spend (s : GameState) (o : Oracle)
    (h : s.player_resources.mp ≥ 20) :
    (playerDispatch s .LIGHTNING_SPELL o).1.player_resources =
      { s.player_resources with mp := s.player_resources.mp - 20 } ∧
    (playerDispatch s .LIGHTNING_SPELL o).2.success = true := by
  unfold playerDispatch Resources.spend_mp
  dsimp only
  rw [if_pos (by omega)]
  dsimp only
  constructor
  · split
    all_goals simp [add_status_enemy_eq, calcDamage_player_resources]
  · rfl

/-- Helper: Heal off cooldown but with short MP is rejected. -/
theorem playerDispatch_HEAL_fail (s : GameState) (o : Oracle)
    (hcool : s.heal_cooldown ≤ 0) (h : s.player_resources.mp < 30) :
    playerDispatch s .HEAL o =
      (s, { action := PlayerAction.HEAL.value, message := "Not enough MP!" }) := by
  unfold playerDispatch Resources.spend_mp
  dsimp only
  rw [if_neg (by omega), if_neg (by omega)]

/-- Helper: Heal off cooldown with sufficient MP debits exactly 30 MP. -/
theorem playerDispatch_HEAL_spend (s : GameState) (o : Oracle)
    (hcool : s.heal_cooldown ≤ 0) (h : s.player_resources.mp ≥ 30) :
    (playerDispatch s .HEAL o).1.player_resources =
      { s.player_resources with mp := s.player_resources.mp - 30 } ∧
    (playerDispatch s .HEAL o).2.success = true := by
  unfold playerDispatch Resources.spend_mp
  dsimp only
  rw [if_neg (by omega), if_pos (by omega)]
  exact ⟨rfl, rfl⟩

/-- Helper: Scan with short MP is rejected in the ladder. -/
theorem playerDispatch_SCAN_fail (s : GameState) (o : Oracle)
    (h : s.player_resources.mp < 15) :
    playerDispatch s .SCAN o =
      (s, { action := PlayerAction.SCAN.value, message := "Not enough MP!" }) := by
  unfold playerDispatch Resources.spend_mp
  dsimp only
  rw [if_neg (by omega)]

/-- Helper: Scan with sufficient MP debits exactly 15 MP. -/
theorem playerDispatch_SCAN_spend (s : GameState) (o : Oracle)
    (h : s.player_resources.mp ≥ 15) :
    (playerDispatch s .SCAN o).1.player_resources =
      { s.player_resources with mp := s.player_resources.mp - 15 } ∧
    (playerDispatch s .SCAN o).2.success = true := by
  unfold playerDispatch Resources.spend_mp
  dsimp only
  rw [if_pos (by omega)]
  exact ⟨rfl, rfl⟩

theorem costedOk_POWER_STRIKE :
    CostedActionOk .POWER_STRIKE poolTP poolMP 30 "Not enough TP!" := by
  intro s o hfz _
  have hred := executePlayerAction_not_frozen s .POWER_STRIKE o hfz
  unfold poolTP poolMP
  refine ⟨?_, ?_, ?_, ?_⟩
  · intro hlt
    rw [hred, playerDispatch_POWER_STRIKE_fail s o hlt,
      applyPlayerDamage_not_pos _ (by norm_num)]
  · intro hge
    obtain ⟨h1, h2⟩ := playerDispatch_POWER_STRIKE_spend s o hge
    rw [hred, applyPlayerDamage_player_resources, applyPlayerDamage_success, h1, h2]
    exact ⟨rfl, rfl, rfl⟩
  · intro h0
    by_cases hge : s.player_resources.tp ≥ 30
    · obtain ⟨h1, _⟩ := playerDispatch_POWER_STRIKE_spend s o hge
      rw [hred, applyPlayerDamage_player_resources, h1]
      dsimp only
      omega
    · rw [hred, playerDispatch_POWER_STRIKE_fail s o (by omega),
        applyPlayerDamage_not_pos _ (by norm_num)]
      exact h0
  · intro h0
    by_cases hge : s.player_resources.tp ≥ 30
    · obtain ⟨h1, _⟩ := playerDispatch_POWER_STRIKE_spend s o hge
      rw [hred, applyPlayerDamage_player_resources, h1]
      exact h0
    · rw [hred, playerDispatch_POWER_STRIKE_fail s o (by omega),
        applyPlayerDamage_not_pos _ (by norm_num)]
      exact h0

theorem costedOk_FIRE_SPELL :
    CostedActionOk .FIRE_SPELL poolMP poolTP 20 "Not enough MP!" := by
  intro s o hfz _
  have hred := executePlayerAction_not_frozen s .FIRE_SPELL o hfz
  unfold poolMP poolTP
  refine ⟨?_, ?_, ?_, ?_⟩
  · intro hlt
    rw [hred, playerDispatch_FIRE_SPELL_fail s o hlt,
      applyPlayerDamage_not_pos _ (by norm_num)]
  · intro hge
    obtain ⟨h1, h2⟩ := playerDispatch_FIRE_SPELL_spend s o hge
    rw [hred, applyPlayerDamage_player_resources, applyPlayerDamage_success, h1, h2]
    exact ⟨rfl, rfl, rfl⟩
  · intro h0
    by_cases hge : s.player_resources.mp ≥ 20
    · obtain ⟨h1, _⟩ := playerDispatch_FIRE_SPELL_spend s o hge
      rw [hred, applyPlayerDamage_player_resources, h1]
      dsimp only
      omega
    · rw [hred, playerDispatch_FIRE_SPELL_fail s o (by omega),
        applyPlayerDamage_not_pos _ (by norm_num)]
      exact h0
  · intro h0
    by_cases hge : s.player_resources.mp ≥ 20
    · obtain ⟨h1, _⟩ := playerDispatch_FIRE_SPELL_spend s o hge
      rw [hred, applyPlayerDamage_player_resources, h1]
      exact h0
    · rw [hred, playerDispatch_FIRE_SPELL_fail s o (by omega),
        applyPlayerDamage_not_pos _ (by norm_num)]
      exact h0


theorem costedOk_ICE_SPELL :
    CostedActionOk .ICE_SPELL poolMP poolTP 20 "Not enough MP!" := by
  intro s o hfz _
  have hred := executePlayerAction_not_frozen s .ICE_SPELL o hfz
  unfold poolMP poolTP
  refine ⟨?_, ?_, ?_, ?_⟩
  · intro hlt
    rw [hred, playerDispatch_ICE_SPELL_fail s o hlt,
      applyPlayerDamage_not_pos _ (by norm_num)]
  · intro hge
    obtain ⟨h1, h2⟩ := playerDispatch_ICE_SPELL_spend s o hge
    rw [hred, applyPlayerDamage_player_resources, applyPlayerDamage_success, h1, h2]
    exact ⟨rfl, rfl, rfl⟩
  · intro h0
    by_cases hge : s.player_resources.mp ≥ 20
    · obtain ⟨h1, _⟩ := playerDispatch_ICE_SPELL_spend s o hge
      rw [hred, applyPlayerDamage_player_resources, h1]
      dsimp only
      omega
    · rw [hred, playerDispatch_ICE_SPELL_fail s o (by omega),
        applyPlayerDamage_not_pos _ (by norm_num)]
      exact h0
  · intro h0
    by_cases hge : s.player_resources.mp ≥ 20
    · obtain ⟨h1, _⟩ := playerDispatch_ICE_SPELL_spend s o hge
      rw [hred, applyPlayerDamage_player_resources, h1]
      exact h0
    · rw [hred, playerDispatch_ICE_SPELL_fail s o (by omega),
        applyPlayerDamage_not_pos _ (by norm_num)]
      exact h0


theorem costedOk_LIGHTNING_SPELL :
    CostedActionOk .LIGHTNING_SPELL poolMP poolTP 20 "Not enough MP!" := by
  intro s o hfz _
  have hred := executePlayerAction_not_frozen s .LIGHTNING_SPELL o hfz
  unfold poolMP poolTP
  refine ⟨?_, ?_, ?_, ?_⟩
  · intro hlt
    rw [hred, playerDispatch_LIGHTNING_SPELL_fail s o hlt,
      applyPlayerDamage_not_pos _ (by norm_num)]
  · intro hge
    obtain ⟨h1, h2⟩ := playerDispatch_LIGHTNING_SPELL_spend s o hge
    rw [hred, applyPlayerDamage_player_resources, applyPlayerDamage_success, h1, h2]
    exact ⟨rfl, rfl, rfl⟩
  · intro h0
    by_cases hge : s.player_resources.mp ≥ 20
    · obtain ⟨h1, _⟩ := playerDispatch_LIGHTNING_SPELL_spend s o hge
      rw [hred, applyPlayerDamage_player_resources, h1]
      dsimp only
      omega
    · rw [hred, playerDispatch_LIGHTNING_SPELL_fail s o (by omega),
        applyPlayerDamage_not_pos _ (by norm_num)]
      exact h0
  · intro h0
    by_cases hge : s.player_resources.mp ≥ 20
    · obtain ⟨h1, _⟩ := playerDispatch_LIGHTNING_SPELL_spend s o hge
      rw [hred, applyPlayerDamage_player_resources, h1]
      exact h0
    · rw [hred, playerDispatch_LIGHTNING_SPELL_fail s o (by omega),
        applyPlayerDamage_not_pos _ (by norm_num)]
      exact h0


theorem costedOk_SCAN :
    CostedActionOk .SCAN poolMP poolTP 15 "Not enough MP!" := by
  intro s o hfz _
  have hred := executePlayerAction_not_frozen s .SCAN o hfz
  unfold poolMP poolTP
  refine ⟨?_, ?_, ?_, ?_⟩
  · intro hlt
    rw [hred, playerDispatch_SCAN_fail s o hlt,
      applyPlayerDamage_not_pos _ (by norm_num)]
  · intro hge
    obtain ⟨h1, h2⟩ := playerDispatch_SCAN_spend s o hge
    rw [hred, applyPlayerDamage_player_resources, applyPlayerDamage_success, h1, h2]
    exact ⟨rfl, rfl, rfl⟩
  · intro h0
    by_cases hge : s.player_resources.mp ≥ 15
    · obtain ⟨h1, _⟩ := playerDispatch_SCAN_spend s o hge
      rw [hred, applyPlayerDamage_player_resources, h1]
      dsimp only
      omega
    · rw [hred, playerDispatch_SCAN_fail s o (by omega),
        applyPlayerDamage_not_pos _ (by norm_num)]
      exact h0
  · intro h0
    by_cases hge : s.player_resources.mp ≥ 15
    · obtain ⟨h1, _⟩ := playerDispatch_SCAN_spend s o hge
      rw [hred, applyPlayerDamage_player_resources, h1]
      exact h0
    · rw [hred, playerDispatch_SCAN_fail s o (by omega),
        applyPlayerDamage_not_pos _ (by norm_num)]
      exact h0


theorem costedOk_HEAL :
    CostedActionOk .HEAL poolMP poolTP 30 "Not enough MP!" := by
  intro s o hfz hcool
  have hred := executePlayerAction_not_frozen s .HEAL o hfz
  unfold poolMP poolTP
  refine ⟨?_, ?_, ?_, ?_⟩
  · intro hlt
    rw [hred, playerDispatch_HEAL_fail s o (hcool rfl) hlt,
      applyPlayerDamage_not_pos _ (by norm_num)]
  · intro hge
    obtain ⟨h1, h2⟩ := playerDispatch_HEAL_spend s o (hcool rfl) hge
    rw [hred, applyPlayerDamage_player_resources, applyPlayerDamage_success, h1, h2]
    exact ⟨rfl, rfl, rfl⟩
  · intro h0
    by_cases hge : s.player_resources.mp ≥ 30
    · obtain ⟨h1, _⟩ := playerDispatch_HEAL_spend s o (hcool rfl) hge
      rw [hred, applyPlayerDamage_player_resources, h1]
      dsimp only
      omega
    · rw [hred, playerDispatch_HEAL_fail s o (hcool rfl) (by omega),
        applyPlayerDamage_not_pos _ (by norm_num)]
      exact h0
  · intro h0
    by_cases hge : s.player_resources.mp ≥ 30
    · obtain ⟨h1, _⟩ := playerDispatch_HEAL_spend s o (hcool rfl) hge
      rw [hred, applyPlayerDamage_player_resources, h1]
      exact h0
    · rw [hred, playerDispatch_HEAL_fail s o (hcool rfl) (by omega),
        applyPlayerDamage_not_pos _ (by norm_num)]
      exact h0

/-- C4, counterexample: the claim's "otherwise exactly the cost is
deducted" fails for Heal on cooldown: with full MP (100 >= 30) but
`heal_cooldown = 2`, the Heal attempt changes nothing — in particular no
MP is deducted. -/
theorem C4_counterexample_heal_on_cooldown :
    ({ initialState .FIRE_GOLEM with heal_cooldown := 2 } : GameState).player_resources.mp = 100 ∧
    ((100 : ℤ) ≥ 30) ∧
    (executePlayerAction { initialState .FIRE_GOLEM with heal_cooldown := 2 }
        .HEAL {}).1 =
      { initialState .FIRE_GOLEM with heal_cooldown := 2 } ∧
    (executePlayerAction { initialState .FIRE_GOLEM with heal_cooldown := 2 }
        .HEAL {}).2.success = false := by
  decide

/-- C4, amended: for every resource-costed action (PowerStrike 30 TP;
Fire/Ice/Lightning Spell 20 MP; Heal 30 MP; Scan 15 MP), with the player
not frozen — and, for Heal, only when it is additionally off cooldown
(a Heal attempted on cooldown is likewise a mutation-free no-op even
with sufficient MP) — a pool short of the cost makes the action a
mutation-free no-op with the descriptive failure result; otherwise
exactly the cost is deducted from that pool (the other pool untouched)
before any further effect, and neither pool ever becomes negative. -/
theorem C4_amended_costed_actions :
    CostedActionOk .POWER_STRIKE poolTP poolMP 30 "Not enough TP!" ∧
    CostedActionOk .FIRE_SPELL poolMP poolTP 20 "Not enough MP!" ∧
    CostedActionOk .ICE_SPELL poolMP poolTP 20 "Not enough MP!" ∧
    CostedActionOk .LIGHTNING_SPELL poolMP poolTP 20 "Not enough MP!" ∧
    CostedActionOk .HEAL poolMP poolTP 30 "Not enough MP!" ∧
    CostedActionOk .SCAN poolMP poolTP 15 "Not enough MP!" :=
  ⟨costedOk_POWER_STRIKE, costedOk_FIRE_SPELL, costedOk_ICE_SPELL,
   costedOk_LIGHTNING_SPELL, costedOk_HEAL, costedOk_SCAN⟩

/-- C4, witness: at session start (50 TP, 100 MP, heal off cooldown),
Power Strike debits exactly 30 TP, and a starved Power Strike (10 TP) is
a full no-op with the descriptive message. -/
theorem C4_amended_costed_actions_witness :
    (executePlayerAction (initialState .FIRE_GOLEM) .POWER_STRIKE {}).1.player_resources.tp = 20 ∧
    (executePlayerAction
        { initialState .FIRE_GOLEM with
            player_resources := { tp := 10 } } .POWER_STRIKE {}) =
      ({ initialState .FIRE_GOLEM with player_resources := { tp := 10 } },
        { action := "PowerStrike", message := "Not enough TP!" }) := by
  have h1 := (C4_amended_costed_actions.1 (initialState .FIRE_GOLEM) {}
    (by decide) (by intro h; cases h)).2.1 (by decide)
  have h2 := (C4_amended_costed_actions.1
    { initialState .FIRE_GOLEM with player_resources := { tp := 10 } } {}
    (by decide) (by intro h; cases h)).1 (by decide)
  refine ⟨?_, ?_⟩
  · have := h1.1
    unfold poolTP at this
    rw [this]
    decide
  · exact h2

/-! ## C9 — the player is never frozen when the player action resolves -/

/-- Helper: removing an enemy status is a plain `enemy_status` update. -/
theorem remove_status_enemy_eq (s : GameState) (a : StatusAilment) :
    s.remove_status "enemy" a = { s with enemy_status := removeStatusList s.enemy_status a } := by
  unfold GameState.remove_status GameState.setStatusList GameState.statusList
  simp

/-- Helper: removing a player status is a plain `player_status` update. -/
theorem remove_status_player_eq (s : GameState) (a : StatusAilment) :
    s.remove_status "player" a = { s with player_status := removeStatusList s.player_status a } := by
  unfold GameState.remove_status GameState.setStatusList GameState.statusList
  simp

/-- Helper: a list with no Freeze trivially bounds its Freeze durations. -/
theorem freezeOk_of_noFreeze {l : List StatusEffect} (h : noFreezeList l) :
    freezeOkList l :=
  fun ef hef hail => absurd hail (h ef hef)

/-- Helper: filtering preserves the absence of Freeze. -/
theorem noFreeze_filter {l : List StatusEffect} (p : StatusEffect → Bool)
    (h : noFreezeList l) : noFreezeList (l.filter p) :=
  fun ef hef => h ef (List.mem_of_mem_filter hef)

/-- Helper: filtering preserves the Freeze-duration bound. -/
theorem freezeOk_filter {l : List StatusEffect} (p : StatusEffect → Bool)
    (h : freezeOkList l) : freezeOkList (l.filter p) :=
  fun ef hef => h ef (List.mem_of_mem_filter hef)

/-- Helper: adding a non-Freeze effect preserves the absence of Freeze. -/
theorem noFreeze_add {l : List StatusEffect} {e : StatusEffect}
    (h : noFreezeList l) (he : e.ailment ≠ .FREEZE) :
    noFreezeList (addStatusList l e) := by
  intro ef hef
  unfold addStatusList at hef
  rw [List.mem_append] at hef
  rcases hef with hef | hef
  · exact h ef (List.mem_of_mem_filter hef)
  · rw [List.mem_singleton] at hef
    subst hef
    exact he

/-- Helper: adding an effect whose Freeze duration is bounded preserves
the Freeze-duration bound. -/
theorem freezeOk_add {l : List StatusEffect} {e : StatusEffect}
    (h : freezeOkList l) (he : e.ailment = .FREEZE → e.duration ≤ 1) :
    freezeOkList (addStatusList l e) := by
  intro ef hef hail
  unfold addStatusList at hef
  rw [List.mem_append] at hef
  rcases hef with hef | hef
  · exact h ef (List.mem_of_mem_filter hef) hail
  · rw [List.mem_singleton] at hef
    subst hef
    exact he hail

/-- Helper: after the per-turn tick, a Freeze-duration-bounded list has no
Freeze left at all — a duration-1 Freeze ticks to 0 and is removed. -/
theorem noFreeze_of_tick (l : List StatusEffect) (h : freezeOkList l) :
    noFreezeList (tickStatusList l).1 := by
  intro ef hef hail
  unfold tickStatusList at hef
  dsimp only at hef
  rw [List.mem_filter] at hef
  obtain ⟨hmem, hdur⟩ := hef
  rw [List.mem_map] at hmem
  obtain ⟨e0, he0, rfl⟩ := hmem
  have hb := h e0 he0 hail
  simp only [decide_eq_true_eq] at hdur
  omega

/-- Helper: a list without Freeze fails the `has_status` scan. -/
theorem anyFreeze_eq_false {l : List StatusEffect} (h : noFreezeList l) :
    l.any (fun e => decide (e.ailment = StatusAilment.FREEZE)) = false := by
  rw [List.any_eq_false]
  intro ef hef
  simp only [decide_eq_true_eq]
  exact h ef hef

/-- Helper: `has_status "player"` reads exactly `player_status`. -/
theorem has_status_player (s : GameState) (a : StatusAilment) :
    s.has_status "player" a = s.player_status.any (fun e => decide (e.ailment = a)) := by
  unfold GameState.has_status GameState.statusList
  simp

/-- Helper: `updateEnemy` never touches `player_status`. -/
theorem updateEnemy_player_status (s : GameState) (f : CombatStats → CombatStats) :
    (s.updateEnemy f).player_status = s.player_status := by
  unfold GameState.updateEnemy
  split <;> rfl

/-- Helper: `_calculate_damage` never touches `player_status`. -/
theorem calcDamage_player_status (s : GameState) (b : ℤ) (el : Element)
    (att : String) (o : Oracle) :
    (calcDamage s b el att o).1.player_status = s.player_status := by
  unfold calcDamage
  dsimp only
  repeat' split
  all_goals simp [remove_status_enemy_eq]

/-- Helper: the pre-action phase exactly ticks `player_status` — the
heal-cooldown, regeneration, element-expiry and damage-over-time steps
leave the player's status list alone. -/
theorem tickPhase_player_status (s : GameState) :
    (tickPhase s).player_status = (tickStatusList s.player_status).1 := by
  have hfold1 : ∀ (l : List (StatusAilment × ℤ)) (st : GameState),
      (l.foldl (fun s ev => { s with player := (s.player.take_damage ev.2).1 }) st).player_status =
        st.player_status := by
    intro l
    induction l with
    | nil => intro st; rfl
    | cons x t ih =>
      intro st
      rw [List.foldl_cons]
      exact ih _
  have hfold2 : ∀ (l : List (StatusAilment × ℤ)) (st : GameState),
      (l.foldl (fun s ev => s.updateEnemy (fun e => (e.take_damage ev.2).1)) st).player_status =
        st.player_status := by
    intro l
    induction l with
    | nil => intro st; rfl
    | cons x t ih =>
      intro st
      rw [List.foldl_cons, ih, updateEnemy_player_status]
  unfold tickPhase
  dsimp only
  rw [hfold2, hfold1]
  repeat' split
  all_goals first | rfl | simp [updateEnemy_player_status]

/-- Helper: the apply-damage block of the player's half never touches
`player_status`. -/
theorem applyPlayerDamage_player_status (sr : GameState × PlayerResult) :
    (applyPlayerDamage sr).1.player_status = sr.1.player_status := by
  unfold applyPlayerDamage
  dsimp only
  repeat' split
  all_goals rfl

/-- Helper: the player-action ladder never introduces a Freeze on the
player — the only player status it ever adds is Defending. -/
theorem playerDispatch_noFreeze (s : GameState) (a : PlayerAction) (o : Oracle)
    (h : noFreezeList s.player_status) :
    noFreezeList ((playerDispatch s a o).1.player_status) := by
  unfold playerDispatch
  cases a
  all_goals dsimp only
  all_goals repeat' split
  all_goals
    first
    | exact h
    | (simp only [add_status_enemy_eq, add_status_player_eq, calcDamage_player_status]
       first
       | exact h
       | exact noFreeze_add h (by decide))

/-- Helper: the full unfrozen player-action resolution never introduces a
Freeze on the player. -/
theorem playerActionResolve_noFreeze (s : GameState) (a : PlayerAction) (o : Oracle)
    (h : noFreezeList s.player_status) :
    noFreezeList ((playerActionResolve s a o).1.player_status) := by
  unfold playerActionResolve
  rw [applyPlayerDamage_player_status]
  exact playerDispatch_noFreeze s a o h

/-- Helper: `execute_player_action` never introduces a Freeze on the
player. -/
theorem executePlayerAction_noFreeze (s : GameState) (a : PlayerAction) (o : Oracle)
    (h : noFreezeList s.player_status) :
    noFreezeList ((executePlayerAction s a o).1.player_status) := by
  unfold executePlayerAction playerFrozenSkip
  split
  · rw [remove_status_player_eq]
    exact noFreeze_filter _ h
  · exact playerActionResolve_noFreeze s a o h

/-- Helper: the Fire Golem executor never touches `player_status`. -/
theorem executeFireGolemAction_player_status (s : GameState) (a : String) (o : Oracle) :
    (executeFireGolemAction s a o).1.player_status = s.player_status := by
  unfold executeFireGolemAction
  dsimp only
  repeat' split
  all_goals
    simp [add_status_enemy_eq, calcDamage_player_status, updateEnemy_player_status]

/-- Helper: every Freeze the Ice Wraith executor puts on the player (the
Ice Spell proc) has duration 1, and its other player status is Attack
Down, so the Freeze-duration bound is preserved. -/
theorem executeIceWraithAction_freezeOk (s : GameState) (a : String) (o : Oracle)
    (h : freezeOkList s.player_status) :
    freezeOkList ((executeIceWraithAction s a o).1.player_status) := by
  unfold executeIceWraithAction
  dsimp only
  repeat' split
  all_goals
    first
    | exact h
    | (simp only [add_status_enemy_eq, add_status_player_eq, calcDamage_player_status,
         updateEnemy_player_status]
       first
       | exact h
       | exact freezeOk_add h (by decide))

/-- Helper: the only player status the Thunder Drake executor applies is
Paralyze (never Freeze), so the Freeze-duration bound is preserved. -/
theorem executeThunderDrakeAction_freezeOk (s : GameState) (a : String) (o : Oracle)
    (h : freezeOkList s.player_status) :
    freezeOkList ((executeThunderDrakeAction s a o).1.player_status) := by
  unfold executeThunderDrakeAction
  dsimp only
  repeat' split
  all_goals
    first
    | exact h
    | (simp only [add_status_enemy_eq, add_status_player_eq, calcDamage_player_status,
         updateEnemy_player_status]
       first
       | exact h
       | exact freezeOk_add h (by decide))

/-- Helper: the archetype dispatch keeps the player's Freeze bound. -/
theorem enemyDispatch_freezeOk (s : GameState) (a : String) (o : Oracle)
    (h : freezeOkList s.player_status) :
    freezeOkList ((enemyDispatch s a o).1.player_status) := by
  unfold enemyDispatch
  repeat' split
  all_goals
    first
    | exact h
    | (rw [executeFireGolemAction_player_status]; exact h)
    | exact executeIceWraithAction_freezeOk s a o h
    | exact executeThunderDrakeAction_freezeOk s a o h

/-- Helper: enemy damage application never touches `player_status` (it
only hits the player's hit points). -/
theorem applyEnemyDamage_player_status (sr : GameState × EnemyResult) :
    (applyEnemyDamage sr).1.player_status = sr.1.player_status := by
  unfold applyEnemyDamage
  dsimp only
  repeat' split
  all_goals rfl

/-- Helper: a Frost Aura freeze is applied with duration 1, keeping the
player's Freeze bound. -/
theorem applyFrostAura_freezeOk (sr : GameState × EnemyResult) (o : Oracle)
    (h : freezeOkList sr.1.player_status) :
    freezeOkList ((applyFrostAura sr o).1.player_status) := by
  unfold applyFrostAura
  dsimp only
  split
  · rw [add_status_player_eq]
    exact freezeOk_add h (by decide)
  · exact h

/-- Helper: history recording never touches `player_status`. -/
theorem recordEnemyAction_player_status (s : GameState) (a : String) :
    (recordEnemyAction s a).player_status = s.player_status := by
  unfold recordEnemyAction
  split <;> rfl

/-- Helper: enemy action selection never touches `player_status` (it only
ever adds Enrage / Frost Aura to the enemy's list). -/
theorem selectEnemyAction_player_status (s : GameState) (pick : Nat) :
    (selectEnemyAction s pick).1.player_status = s.player_status := by
  unfold selectEnemyAction
  repeat' split
  all_goals simp [add_status_enemy_eq]

/-- Helper: the whole enemy half keeps the player's Freeze bound — the
only Freezes it applies (Ice Spell proc, Frost Aura) have duration 1. -/
theorem executeEnemyTurn_freezeOk (s : GameState) (o : Oracle)
    (h : freezeOkList s.player_status) :
    freezeOkList ((executeEnemyTurn s o).1.player_status) := by
  unfold executeEnemyTurn
  dsimp only
  repeat' split
  all_goals
    first
    | exact h
    | (dsimp only
       rw [recordEnemyAction_player_status]
       apply applyFrostAura_freezeOk
       rw [applyEnemyDamage_player_status]
       apply enemyDispatch_freezeOk
       first
       | exact h
       | (rw [selectEnemyAction_player_status]; exact h))

/-- Helper: telegraph selection never touches `player_status`. -/
theorem telegraphEnemyAction_player_status (s : GameState) (o : Oracle) :
    (telegraphEnemyAction s o).1.player_status = s.player_status := by
  unfold telegraphEnemyAction
  repeat' split
  all_goals
    simp [selectEnemyAction_player_status, apply_ite Prod.fst,
      apply_ite GameState.player_status, ite_self]

/-- Helper: one full `process_turn` preserves the between-turns
invariant that every Freeze on the player has duration at most 1. -/
theorem processTurn_freezeBounded (s : GameState) (a : PlayerAction) (o : Oracle)
    (h : playerFreezeBounded s) :
    playerFreezeBounded (processTurn s a o).state := by
  have h1 : noFreezeList (tickPhase (incTurn s)).player_status := by
    rw [tickPhase_player_status]
    exact noFreeze_of_tick _ h
  have h2 : noFreezeList ((executePlayerAction (tickPhase (incTurn s)) a o).1.player_status) :=
    executePlayerAction_noFreeze _ a o h1
  unfold processTurn playerFreezeBounded
  dsimp only
  repeat' split
  all_goals
    first
    | exact h
    | exact freezeOk_of_noFreeze h2
    | exact executeEnemyTurn_freezeOk _ o (freezeOk_of_noFreeze h2)
    | (rw [remove_status_player_eq]
       exact freezeOk_filter _ (executeEnemyTurn_freezeOk _ o (freezeOk_of_noFreeze h2)))
    | (rw [telegraphEnemyAction_player_status, remove_status_player_eq]
       exact freezeOk_filter _ (executeEnemyTurn_freezeOk _ o (freezeOk_of_noFreeze h2)))

/-- Helper: in every reachable state, every Freeze the player carries has
duration at most 1 (and the initial player status list is empty). -/
theorem reachable_freezeBounded (s : GameState) (h : Reachable s) :
    playerFreezeBounded s := by
  induction h with
  | init et =>
    intro ef hef
    exact absurd hef (List.not_mem_nil ef)
  | step s a o _ ih => exact processTurn_freezeBounded s a o ih

/-- C9: in every state reachable through `process_turn`, the player does
not carry Freeze at the moment the player action resolves — after the
status tick at the top of the next `process_turn` call, the freeze check
of `execute_player_action` reads false, and the frozen-turn-skip branch is
never taken: the call resolves through the ordinary action ladder. -/
theorem C9_player_never_frozen_at_action (s : GameState) (hs : Reachable s)
    (a : PlayerAction) (o : Oracle) :
    (tickPhase (incTurn s)).has_status "player" .FREEZE = false ∧
    executePlayerAction (tickPhase (incTurn s)) a o =
      playerActionResolve (tickPhase (incTurn s)) a o := by
  have hb : playerFreezeBounded s := reachable_freezeBounded s hs
  have h1 : noFreezeList (tickPhase (incTurn s)).player_status := by
    rw [tickPhase_player_status]
    exact noFreeze_of_tick _ hb
  have h2 : (tickPhase (incTurn s)).has_status "player" .FREEZE = false := by
    rw [has_status_player]
    exact anyFreeze_eq_false h1
  refine ⟨h2, ?_⟩
  unfold executePlayerAction
  rw [h2]
  simp

/-- C9, instantiated: the session-start state against the Fire Golem is
reachable, and its first player action resolves unfrozen. -/
theorem C9_player_never_frozen_at_action_witness :
    (tickPhase (incTurn (initialState .FIRE_GOLEM))).has_status "player" .FREEZE = false ∧
    executePlayerAction (tickPhase (incTurn (initialState .FIRE_GOLEM))) .ATTACK {} =
      playerActionResolve (tickPhase (incTurn (initialState .FIRE_GOLEM))) .ATTACK {} :=
  C9_player_never_frozen_at_action (initialState .FIRE_GOLEM)
    (Reachable.init .FIRE_GOLEM) .ATTACK {}

end A2BT
